import Mathlib

/-!
Verification of the multi-tier classification/resolution engine of this
repository against its specification.

The engine lives in `src/KnowledgeBank/Gemini/gemini_parser.py` (V4 parser:
`MultiSignalEventDetector`, `TieredRescueDetector`, `GeoHierarchyResolver`,
`ConsensusConfidenceScorer`, `GeminiParserFinal.parse_tweet`), with auxiliary
pieces in `src/scripts/gemini_parser_v2.py` (`HybridLocationResolver`,
`EntityExtractorV2.extract_people`) and
`src/KnowledgeBank/source_code/location_matcher.py` (`_build_location_index`).

Modelling conventions (shallow embedding):
* Python floats are modelled as exact rationals `ℚ`; all the constants in the
  source are short decimal literals, so this is faithful for the algebraic
  routing/scoring logic being verified.
* A post text is abstracted by a `TextModel`:
  - `occurs kw` models the Python substring test `kw in text.lower()`;
  - `research p` models `re.search(p, text.lower()) is not None`
    (equivalently a case-insensitive search, as used for scheme patterns);
  - `candidates` models the deduplicated candidate list
    `list(set(self._extract_location_candidates(text) + self._extract_all_tokens(text)))`
    computed by `GeoHierarchyResolver.resolve`;
  - `ward`/`zone` model the results of `_extract_ward`/`_extract_zone`.
  The regex engine itself is the only part treated as an oracle; every piece of
  scoring, selection and routing logic downstream of it is transcribed from the
  source.
* Python `dict` literals appear as association lists (`List (String × _)`) with
  `List.lookup`; the name→record gazetteer indexes, whose assignment semantics
  (last writer wins) matter for claim C8, are modelled as updatable functions
  `String → Option LocData`.
* Python `max(xs, key=f)` (first maximal element wins) is `pyMax`.
* Python `round(x, 2)` (round-half-to-even on the rational model) is `pyRound2`.
-/

/-- Rendering of a Python value inside an f-string: `None` prints as "None". -/
def pyStr (o : Option String) : String := o.getD "None"

/-- Python truthiness of an optional string (`None` and `""` are falsy). -/
def pyTruthy (o : Option String) : Bool :=
  match o with
  | none => false
  | some s => s ≠ ""

/-- ASCII lower-casing; models Python `str.lower()` (which is the identity on
the Devanagari names appearing in the data and agrees with this on ASCII). -/
def asciiLower (s : String) : String := String.mk (s.data.map Char.toLower)

/-- ASCII upper-casing, models `str.upper()` on the ASCII type tags. -/
def asciiUpper (s : String) : String := String.mk (s.data.map Char.toUpper)

/-- Python `max(l, key=score)` for a nonempty list: the first element of
maximal score wins (later elements replace the current best only when
strictly greater). Returns `none` exactly on the empty list, where the
Python call would raise. -/
def pyMax {α : Type} (score : α → ℚ) : List α → Option α
  | [] => none
  | x :: xs => some (xs.foldl (fun b y => if score b < score y then y else b) x)

/-- Round half to even, as Python's `round` on our rational model of floats. -/
def roundHalfEven (x : ℚ) : ℤ :=
  if x - ⌊x⌋ < 1/2 then ⌊x⌋
  else if 1/2 < x - ⌊x⌋ then ⌊x⌋ + 1
  else if ⌊x⌋ % 2 = 0 then ⌊x⌋ else ⌊x⌋ + 1

/-- Python `round(x, 2)`. -/
def pyRound2 (x : ℚ) : ℚ := (roundHalfEven (x * 100) : ℚ) / 100

/-- `CONFIDENCE_AUTO_APPROVE` from the configuration block. -/
def CONFIDENCE_AUTO_APPROVE : ℚ := 85/100

/-- The consensus weights dict`CONSENSUS_WEIGHTS` (insertion order kept). -/
def CONSENSUS_WEIGHTS : List (String × ℚ) := [
    ("keyword", (1 : ℚ)/4),
    ("semantic", (1 : ℚ)/5),
    ("hierarchy", (1 : ℚ)/5),
    ("rescue", (3 : ℚ)/20),
    ("dictionary", (1 : ℚ)/10),
    ("faiss_agreement", (1 : ℚ)/10)]

/-- The `(signals[name], weight)` pairs actually accumulated by the loop in
`ConsensusConfidenceScorer.calculate`: a weighted signal participates iff its
name is a key of the `signals` dict and its value is not `None`. -/
def presentSignals (signals : List (String × Option ℚ)) : List (ℚ × ℚ) :=
  CONSENSUS_WEIGHTS.filterMap (fun nw =>
    match List.lookup nw.1 signals with
    | some (some v) => some (v, nw.2)
    | _ => none)

/-- `weighted_sum` at the end of the loop in `calculate`. -/
def weightedSum (signals : List (String × Option ℚ)) : ℚ :=
  ((presentSignals signals).map (fun p => p.1 * p.2)).sum

/-- `total_weight` at the end of the loop in `calculate`. -/
def totalWeight (signals : List (String × Option ℚ)) : ℚ :=
  ((presentSignals signals).map Prod.snd).sum

/-- `high_conf_signals = sum(1 for s in signals.values() if s and s > 0.8)`:
a value counts when it is truthy (not `None`, not `0.0`) and exceeds 0.8. -/
def highConfCount (signals : List (String × Option ℚ)) : ℕ :=
  (signals.map Prod.snd).countP (fun s =>
    match s with
    | some v => decide (v ≠ 0 ∧ (4:ℚ)/5 < v)
    | none => false)

/-- `ConsensusConfidenceScorer.calculate`. -/
def calculate (signals : List (String × Option ℚ)) : ℚ :=
  if totalWeight signals = 0 then 3/10
  else
    let base := weightedSum signals / totalWeight signals
    let boosted := if 3 ≤ highConfCount signals then base * (11/10) else base
    min boosted 1

/-- `high_precision_events` in `ConsensusConfidenceScorer.determine_review_status`. -/
def HIGH_PRECISION_EVENTS : List String := [
    "शोक संदेश", "जन्मदिन शुभकामना", "आंतरिक सुरक्षा / पुलिस",
    "खेल / गौरव", "आपदा / दुर्घटना"]

/-- The category-specific review bar chosen by `determine_review_status`. -/
def reviewThreshold (event_type : String) : ℚ :=
  if event_type ∈ HIGH_PRECISION_EVENTS then 92/100 else CONFIDENCE_AUTO_APPROVE

/-- `ConsensusConfidenceScorer.determine_review_status`:
`(review_status, needs_review)`. -/
def determine_review_status (confidence : ℚ) (event_type : String) :
    String × Bool :=
  if reviewThreshold event_type ≤ confidence then ("auto_approved", false)
  else ("pending", true)

/-- Concrete signal dict used to instantiate C1's hypotheses. -/
def C1sig : List (String × Option ℚ) :=
  [("keyword", some ((9:ℚ)/10)), ("hierarchy", some ((3:ℚ)/5))]

/-- Abstraction of one post text; see the module docstring. The regex/substring
primitives of the Python runtime are the oracle; everything downstream is
transcribed. -/
structure TextModel where
  occurs : String → Bool
  research : String → Bool
  candidates : List String
  ward : Option String
  zone : Option String

/-- One entry of `EVENT_KEYWORD_CLUSTERS_WEIGHTED`. -/
structure Cluster where
  event_type : String
  weight : ℚ
  tier_1 : List String
  tier_2 : List String
  tier_3 : List String
  deriving DecidableEq

/-- One value of the `TieredRescueDetector.RESCUE_TIERS` dict. -/
structure TierConfig where
  patterns : List String
  weight : ℚ
  confidence_boost : ℚ
  target_event : String
  deriving DecidableEq

/-- The dict returned by `TieredRescueDetector.rescue`. -/
structure RescueInfo where
  event_type : String
  content_mode : String
  is_rescued : Bool
  rescue_tag : Option String
  confidence_bonus : ℚ
  deriving DecidableEq

/-- `RESCUE_TIERS` (dict in insertion order). -/
def RESCUE_TIERS : List (String × TierConfig) := [
  ("sports_critical",
   { patterns := [
    "(मैच|match)\\s*(जीत|won|win)", "(पदक|medal)\\s*(जीत|won)",
    "(ओलंपिक|olympic)", "(चैंपियन|champion)"],
     weight := (1 : ℚ),
     confidence_boost := (1 : ℚ)/4,
     target_event := "खेल / गौरव" }),
  ("security_critical",
   { patterns := [
    "(माओवाद|naxal|नक्सल)", "(शहीद|martyr)",
    "(आत्मसमर्पण|surrender)", "(encounter|मुठभेड़)"],
     weight := (1 : ℚ),
     confidence_boost := (1 : ℚ)/4,
     target_event := "आंतरिक सुरक्षा / पुलिस" }),
  ("admin_high",
   { patterns := [
    "(समीक्षा\\s*बैठक)", "(कलेक्टर|collector)",
    "(अधिकारियों\\s*के\\s*साथ)"],
     weight := (4 : ℚ)/5,
     confidence_boost := (9 : ℚ)/50,
     target_event := "प्रशासनिक समीक्षा बैठक" }),
  ("political_high",
   { patterns := [
    "(डबल\\s*इंजन)", "(भ्रष्टाचार|corruption)",
    "(विकसित\\s*भारत)", "(मोदी\\s*की\\s*गारंटी)"],
     weight := (4 : ℚ)/5,
     confidence_boost := (9 : ℚ)/50,
     target_event := "राजनीतिक वक्तव्य" })]

/-- Infix test on character lists (helper for Python's `sub in s`). -/
def listIsInfixOf (sub l : List Char) : Bool :=
  (List.range (l.length + 1)).any (fun i => sub.isPrefixOf (l.drop i))

/-- Python's substring containment `sub in s` (used on the ASCII tier names). -/
def strContains (s sub : String) : Bool := listIsInfixOf sub.data s.data

/-- The `rescue_info` dict as initialised at the top of `rescue`. -/
def defaultRescueInfo (current_event : String) : RescueInfo :=
  { event_type := current_event,
    content_mode := "डिजिटल / सोशल-मीडिया पोस्ट",
    is_rescued := false, rescue_tag := none, confidence_bonus := 0 }

/-- The `tier_scores` dict of `TieredRescueDetector.rescue`: for each tier with
at least one matching pattern, `min(matches/len(patterns), 1.0) * weight`. -/
def tierScores (tm : TextModel) : List (String × ℚ × TierConfig) :=
  RESCUE_TIERS.filterMap (fun t =>
    let nmatch := t.2.patterns.countP tm.research
    if 0 < nmatch then
      some (t.1, min ((nmatch : ℚ) / (t.2.patterns.length : ℚ)) 1 * t.2.weight, t.2)
    else none)

/-- The tail of `TieredRescueDetector.rescue` after the `tier_scores` dict and
`best_tier = max(...)` have been computed: fire iff the best score exceeds
0.5, adopting that tier's target event, tag and bonus (with the tier-dependent
`content_mode`). -/
def rescueStep (current_event : String)
    (best? : Option (String × ℚ × TierConfig)) : RescueInfo :=
  match best? with
  | none => defaultRescueInfo current_event
  | some best =>
    if 1/2 < best.2.1 then
      { event_type := best.2.2.target_event,
        content_mode :=
          if strContains best.1 "sports" then "खेल / उपलब्धि पर प्रतिक्रिया"
          else if strContains best.1 "security" || strContains best.1 "political"
            then "नीति / वक्तव्य"
          else "मैदान-स्तर कार्यक्रम",
        is_rescued := true,
        rescue_tag := some best.1,
        confidence_bonus := best.2.2.confidence_boost }
    else defaultRescueInfo current_event

/-- `TieredRescueDetector.rescue` (its unused `location`/`schemes` parameters
are omitted). -/
def rescue (tm : TextModel) (current_event : String) : RescueInfo :=
  if current_event ≠ "अन्य" then defaultRescueInfo current_event
  else rescueStep current_event (pyMax (fun x => x.2.1) (tierScores tm))

/-- A text on which no keyword occurs, no pattern matches and no location
candidate is extracted (e.g. the empty post). -/
def tmEmpty : TextModel :=
  { occurs := fun _ => false, research := fun _ => false,
    candidates := [], ward := none, zone := none }

/-- Abstraction of the post text
"match win medal won olympic naxal martyr surrender encounter":
`re.search` succeeds for three of the four `sports_critical` patterns
("match win", "medal won", "olympic") and — through their Latin alternatives
naxal, martyr, surrender, encounter — for all four `security_critical`
patterns, and for no other rescue-tier pattern. Every keyword of every
`EVENT_KEYWORD_CLUSTERS_WEIGHTED` tier is written in Devanagari, so none
occurs as a substring of this all-ASCII text (`occurs` is constantly false
without loss): the classifier returns "अन्य" and the rescue engine runs. -/
def tmC3 : TextModel :=
  { occurs := fun _ => false,
    research := fun p => decide (p ∈ [
      "(मैच|match)\\s*(जीत|won|win)", "(पदक|medal)\\s*(जीत|won)",
      "(ओलंपिक|olympic)",
      "(माओवाद|naxal|नक्सल)", "(शहीद|martyr)",
      "(आत्मसमर्पण|surrender)", "(encounter|मुठभेड़)"]),
    candidates := [], ward := none, zone := none }

/-- A text matching all four `security_critical` rescue patterns and nothing
else (e.g. the all-ASCII post "naxal martyr surrender encounter", which also
matches no Devanagari event-cluster keyword, so it is classified "अन्य"). -/
def tmW3 : TextModel :=
  { occurs := fun _ => false,
    research := fun p => decide (p ∈ [
      "(माओवाद|naxal|नक्सल)", "(शहीद|martyr)",
      "(आत्मसमर्पण|surrender)", "(encounter|मुठभेड़)"]),
    candidates := [], ward := none, zone := none }

/-- Urban-context vocabulary (`self.CONTEXT_KEYWORDS['urban']`, a Python set
literal with no duplicates, in written order; only its cardinality of matches
matters). -/
def URBAN_CONTEXT_KEYWORDS : List String := [
    "ward", "zone", "parshad", "parishad", "nagar", "nigam",
    "palika", "cm", "mayor", "mahapaur", "chairman", "sabhapati",
    "alderman", "smart city", "traffic", "sadak", "naali", "वार्ड",
    "जोन", "पार्षद", "परिषद", "नगर", "निगम", "पालिका",
    "महापौर", "सभापति", "स्मार्ट सिटी", "सड़क", "नाली"]

/-- Rural-context vocabulary (`self.CONTEXT_KEYWORDS['rural']`). -/
def RURAL_CONTEXT_KEYWORDS : List String := [
    "gram", "panchayat", "sarpanch", "sachiv", "janpad", "mnrega",
    "kisan", "khet", "fasal", "kharif", "rabi", "paddy",
    "dhan", "gothan", "aadiwasi", "van", "jungle", "ग्राम",
    "पंचायत", "सरपंच", "सचिव", "जनपद", "मनरेगा", "किसान",
    "खेत", "फसल", "खरीफ", "रबी", "धान", "गौठान",
    "आदिवासी", "वन", "जंगल"]

/-- `GeoHierarchyResolver._detect_context`. -/
def detect_context (tm : TextModel) : String :=
  if RURAL_CONTEXT_KEYWORDS.countP tm.occurs < URBAN_CONTEXT_KEYWORDS.countP tm.occurs
    then "urban"
  else if URBAN_CONTEXT_KEYWORDS.countP tm.occurs < RURAL_CONTEXT_KEYWORDS.countP tm.occurs
    then "rural"
  else "neutral"

/-- One value of the three gazetteer index dicts (`village_index`, `ulb_index`,
`district_map`). The `has_district`/`has_hierarchy_path` flags record whether
the corresponding dict key exists at all: village and ULB entries carry both
keys; the `district_map` entries carry neither (their path sits under the
unused key `"hierarchy"`), which makes `_format_location` fall back to the
defaults `canonical` and `[]`. -/
structure LocData where
  canonical : Option String
  district : Option String
  has_district : Bool
  block : Option String
  gp : Option String
  assembly : Option String
  ulb_type : Option String
  ltype : String
  hierarchy_path : List String
  has_hierarchy_path : Bool
  ward : Option String
  zone : Option String
  deriving DecidableEq

/-- The dict produced by `GeoHierarchyResolver._format_location`. -/
structure Loc where
  canonical : Option String
  district : Option String
  location_type : String
  hierarchy_path : List String
  assembly : Option String
  block : Option String
  gp : Option String
  village : Option String
  ulb : Option String
  ward : Option String
  zone : Option String
  canonical_key : String
  source : String
  visit_count : ℕ
  deriving DecidableEq

/-- `GeoHierarchyResolver._format_location`. -/
def format_location (l : LocData) : Loc :=
  { canonical := l.canonical,
    district := if l.has_district then l.district else l.canonical,
    location_type := l.ltype,
    hierarchy_path := if l.has_hierarchy_path then l.hierarchy_path else [],
    assembly := l.assembly,
    block := l.block,
    gp := l.gp,
    village := if l.ltype = "rural" then l.canonical else none,
    ulb := if l.ltype = "urban" then l.canonical else none,
    ward := l.ward,
    zone := l.zone,
    canonical_key := "CG_" ++ asciiUpper l.ltype ++ "_" ++ pyStr l.canonical,
    source := "hierarchy_resolver",
    visit_count := 1 }

/-- The three name→record lookup tables held by a `GeoHierarchyResolver`. -/
structure GeoData where
  village_index : String → Option LocData
  ulb_index : String → Option LocData
  district_map : String → Option LocData

/-- The body of the candidate loop of `GeoHierarchyResolver.resolve`: the
`potential_matches` contributed by one candidate. Candidates shorter than two
characters are skipped; a village hit contributes confidence 0.95, a ULB hit
0.90 (with ward/zone attached and the ward appended to the hierarchy path),
a district hit 0.85. -/
def candidateMatches (g : GeoData) (tm : TextModel) (c : String) :
    List (Loc × ℚ × String) :=
  if c.length < 2 then []
  else
    (match g.village_index c with
     | some l => [(format_location l, (19:ℚ)/20, "hierarchy")]
     | none => [])
    ++ (match g.ulb_index c with
     | some l =>
       let lc : LocData := { l with ward := tm.ward, zone := tm.zone }
       let lc := if pyTruthy tm.ward then
           { lc with hierarchy_path :=
               l.hierarchy_path ++ ["वार्ड " ++ pyStr tm.ward] }
         else lc
       [(format_location lc, (9:ℚ)/10, "hierarchy")]
     | none => [])
    ++ (match g.district_map c with
     | some l => [(format_location l, (17:ℚ)/20, "hierarchy")]
     | none => [])

/-- The full `potential_matches` list of `GeoHierarchyResolver.resolve`. -/
def resolveMatches (g : GeoData) (tm : TextModel) : List (Loc × ℚ × String) :=
  tm.candidates.flatMap (candidateMatches g tm)

/-- The `specificity_score` closure inside
`GeoHierarchyResolver._select_best_match`: base 0.5, plus the admin-level
bonus (rural 0.3 / urban 0.2 / district 0.1), plus 0.5 when the post context
matches the candidate type, plus 1.0 when a gram/panchayat (resp.
nagar/ward/zone/parshad/parishad) marker abuts the candidate name, plus 0.05
per hierarchy-path element, plus the raw match confidence. `re.escape` on the
alphanumeric canonical names is the identity and is omitted; the code would
raise if `canonical` were `None` (`None.lower()`), which the model renders as
the empty-string default that `loc.get('canonical','')` suggests. -/
def specificityScore (context_type : String) (tm : TextModel)
    (m : Loc × ℚ × String) : ℚ :=
  1/2
  + (if m.1.location_type = "rural" then (3:ℚ)/10
     else if m.1.location_type = "urban" then (1:ℚ)/5
     else if m.1.location_type = "district" then (1:ℚ)/10 else 0)
  + (if context_type = "urban" ∧ m.1.location_type = "urban" then (1:ℚ)/2 else 0)
  + (if context_type = "rural" ∧ m.1.location_type = "rural" then (1:ℚ)/2 else 0)
  + (if m.1.location_type = "rural" ∧
       (tm.research ("(gram|panchayat)\\s+" ++ asciiLower (m.1.canonical.getD "")) = true ∨
        tm.research (asciiLower (m.1.canonical.getD "") ++ "\\s+(gram|panchayat)") = true)
     then (1:ℚ) else 0)
  + (if m.1.location_type = "urban" ∧
       (tm.research ("(nagar|ward|zone|parshad|parishad)\\s+.*" ++
          asciiLower (m.1.canonical.getD "")) = true ∨
        tm.research (asciiLower (m.1.canonical.getD "") ++
          "\\s+(nagar|ward|zone|parshad|parishad)") = true)
     then (1:ℚ) else 0)
  + (m.1.hierarchy_path.length : ℚ) * (1/20)
  + m.2.1

/-- `GeoHierarchyResolver._select_best_match` (Python `max` with the
specificity key; `none` only on the empty list, where the code would raise). -/
def select_best_match (tm : TextModel) (ms : List (Loc × ℚ × String)) :
    Option (Loc × ℚ × String) :=
  pyMax (specificityScore (detect_context tm) tm) ms

/-- `GeoHierarchyResolver.resolve` (stats bookkeeping aside, cf. `resolveSt`). -/
def resolve (g : GeoData) (tm : TextModel) : Option Loc × ℚ :=
  match select_best_match tm (resolveMatches g tm) with
  | some best => (some best.1, best.2.1)
  | none => (none, 0)

/-- `HybridLocationResolver.resolve` from `gemini_parser_v2.py`, its four
tiers abstracted as inputs: `landmark` is the result of `_landmark_lookup`,
`entityLoc` that of `_infer_from_entities`, `geoLookup c` the result of
`self.geo_resolver.resolve_hierarchy(c, text)`, and `semanticBest c` the
first semantic match of a candidate (already cut at `min_score=0.75`).
Confidences: landmark 0.95 (`LANDMARK_CONFIDENCE`), entity inference 0.85,
dictionary/hierarchy 0.88 (`DICTIONARY_HIGH_CONFIDENCE`), semantic
`similarity * 0.9`. -/
def hybridResolve (landmark entityLoc : Option Loc) (candidates : List String)
    (geoLookup : String → Option Loc) (enableSemantic : Bool)
    (semanticBest : String → Option (String × ℚ)) : Option Loc × ℚ × String :=
  match landmark with
  | some l => (some l, (19:ℚ)/20, "landmark_oracle")
  | none =>
    match entityLoc with
    | some l => (some l, (17:ℚ)/20, "entity_inference")
    | none =>
      match candidates.findSome? geoLookup with
      | some l => (some l, (22:ℚ)/25, "hierarchy_resolver")
      | none =>
        if enableSemantic then
          match candidates.findSome? (fun c =>
            if c.length < 3 then none
            else match semanticBest c with
              | some ns => (geoLookup ns.1).map (fun l => (l, ns.2))
              | none => none) with
          | some ls => (some ls.1, ls.2 * ((9:ℚ)/10), "semantic_search")
          | none => (none, 0, "none")
        else (none, 0, "none")

/-- The village record for Siltara as `_build_village_index` shapes it. -/
def ldSiltara : LocData :=
  { canonical := some "Siltara", district := some "Raipur", has_district := true,
    block := some "Dharsiwa", gp := some "Siltara", assembly := none,
    ulb_type := none, ltype := "rural",
    hierarchy_path := ["छत्तीसगढ़", "Raipur जिला", "Dharsiwa विकासखंड",
      "Siltara पंचायत", "Siltara"],
    has_hierarchy_path := true, ward := none, zone := none }

/-- The ULB record for Raipur as `_build_ulb_index` shapes it. -/
def ldRaipurULB : LocData :=
  { canonical := some "Raipur", district := some "Raipur", has_district := true,
    block := none, gp := none, assembly := some "Raipur City",
    ulb_type := some "Municipal Corporation", ltype := "urban",
    hierarchy_path := ["छत्तीसगढ़", "Raipur जिला", "Raipur"],
    has_hierarchy_path := true, ward := none, zone := none }

/-- A gazetteer holding exactly the village Siltara and the ULB Raipur. -/
def gC7 : GeoData :=
  { village_index := fun n => if n = "Siltara" then some ldSiltara else none,
    ulb_index := fun n => if n = "Raipur" then some ldRaipurULB else none,
    district_map := fun _ => none }

/-- Abstraction of the post text (lower-cased)
"raipur gram siltara nagar nigam ward parshad": the urban context keywords
ward, parshad, nagar and nigam occur (4) against the single rural keyword
gram, so the context is urban; `re.search` finds "gram siltara" for the
village adjacency pattern and nothing for the urban adjacency patterns
(raipur is never preceded by a marker nor followed by one); the extracted
candidates contain both names. -/
def tmC7 : TextModel :=
  { occurs := fun kw => decide (kw ∈ ["nagar", "nigam", "ward", "parshad", "gram"]),
    research := fun p => decide (p = "(gram|panchayat)\\s+siltara"),
    candidates := ["Raipur", "Siltara"], ward := none, zone := none }

/-- A text with urban context (nagar, nigam, ward occur) and no
administrative-marker adjacency at all. -/
def tmW7 : TextModel :=
  { occurs := fun kw => decide (kw ∈ ["nagar", "nigam", "ward"]),
    research := fun _ => false,
    candidates := ["Raipur", "Siltara"], ward := none, zone := none }

/-- Shape of a village entry of `potential_matches` (confidence 0.95, 5-step
hierarchy path) whose name does not abut a gram/panchayat marker in the post. -/
def ruralShape (tm : TextModel) (m : Loc × ℚ × String) : Prop :=
  m.1.location_type = "rural" ∧ m.2.1 = (19:ℚ)/20 ∧
  m.1.hierarchy_path.length = 5 ∧
  tm.research ("(gram|panchayat)\\s+" ++ asciiLower (m.1.canonical.getD "")) = false ∧
  tm.research (asciiLower (m.1.canonical.getD "") ++ "\\s+(gram|panchayat)") = false

/-- Shape of a ULB entry of `potential_matches` (confidence 0.90, 3-step
hierarchy path, or 4 with a ward appended). -/
def urbanShape (m : Loc × ℚ × String) : Prop :=
  m.1.location_type = "urban" ∧ m.2.1 = (9:ℚ)/10 ∧
  (m.1.hierarchy_path.length = 3 ∨ m.1.hierarchy_path.length = 4)

/-- Shape of a district entry of `potential_matches` (confidence 0.85; its
formatted `hierarchy_path` is empty because `district_map` entries lack the
`hierarchy_path` key). -/
def districtShape (m : Loc × ℚ × String) : Prop :=
  m.1.location_type = "district" ∧ m.2.1 = (17:ℚ)/20 ∧
  m.1.hierarchy_path.length = 0

/-- An empty gazetteer (all three indexes miss every name). -/
def gNone : GeoData :=
  { village_index := fun _ => none, ulb_index := fun _ => none,
    district_map := fun _ => none }

/-- A text whose only candidate is "रायपुर" and with no other signal. -/
def tmC5 : TextModel :=
  { occurs := fun _ => false, research := fun _ => false,
    candidates := ["रायपुर"], ward := none, zone := none }


/-- `EVENT_KEYWORD_CLUSTERS_WEIGHTED` (all 17 clusters, transcribed). -/
def EVENT_KEYWORD_CLUSTERS_WEIGHTED : List Cluster := [
  { event_type := "जनसम्पर्क / जनदर्शन",
    weight := ((6 : ℚ)/5),
    tier_1 := [
    "जनसम्पर्क", "जनदर्शन", "मुलाकात", "भेंट", "दौरा", "प्रवास",
    "आगमन"],
    tier_2 := [
    "स्वागत", "अभिनंदन", "चर्चा", "संवाद"],
    tier_3 := [
    "शामिल", "उपस्थित", "कार्यक्रम"] },
  { event_type := "राजनीतिक वक्तव्य",
    weight := (1 : ℚ),
    tier_1 := [
    "प्रेस वार्ता", "बयान", "संबोधन", "आरोप", "प्रत्यारोप", "कांग्रेस",
    "भाजपा"],
    tier_2 := [
    "सरकार", "विपक्ष", "घोटाला", "भ्रष्टाचार", "विकास"],
    tier_3 := [
    "ट्वीट", "मीडिया", "पत्रकार"] },
  { event_type := "धार्मिक / सांस्कृतिक कार्यक्रम",
    weight := ((11 : ℚ)/10),
    tier_1 := [
    "पूजा", "अर्चना", "दर्शन", "आरती", "मंदिर", "महोत्सव",
    "जयंती", "पर्व"],
    tier_2 := [
    "पुण्यतिथि", "श्रद्धांजलि", "नमन", "स्मरण"],
    tier_3 := [
    "आयोजन", "समारोह", "उत्सव"] },
  { event_type := "आंतरिक सुरक्षा / पुलिस",
    weight := ((3 : ℚ)/2),
    tier_1 := [
    "नक्सल", "माओवादी", "शहीद", "मुठभेड़", "गिरफ्तार", "आत्मसमर्पण",
    "बरामद"],
    tier_2 := [
    "पुलिस", "जवान", "सुरक्षा", "बल", "आईईडी"],
    tier_3 := [
    "सर्चिंग", "अभियान", "थाना"] },
  { event_type := "खेल / गौरव",
    weight := ((7 : ℚ)/5),
    tier_1 := [
    "पदक", "मेडल", "विजेता", "चैंपियन", "खेल", "खिलाड़ी",
    "जीत"],
    tier_2 := [
    "प्रतियोगिता", "टूर्नामेंट", "आयोजन"],
    tier_3 := [
    "बधाई", "शुभकामनाएं"] },
  { event_type := "आपदा / दुर्घटना",
    weight := ((13 : ℚ)/10),
    tier_1 := [
    "हादसा", "दुर्घटना", "मौत", "घायल", "आग", "बाढ़",
    "सूखा"],
    tier_2 := [
    "राहत", "बचाव", "मुआवजा"],
    tier_3 := [
    "नुकसान", "क्षति"] },
  { event_type := "बैठक",
    weight := (1 : ℚ),
    tier_1 := [
    "बैठक", "समीक्षा", "मीटिंग"],
    tier_2 := [
    "अधिकारी", "निर्देश", "चर्चा"],
    tier_3 := [
    "आयोजित", "संपन्न"] },
  { event_type := "उद्घाटन",
    weight := ((6 : ℚ)/5),
    tier_1 := [
    "उद्घाटन", "लोकार्पण", "शिलान्यास", "भूमिपूजन"],
    tier_2 := [
    "सौगात", "शुभारंभ"],
    tier_3 := [
    "विकास कार्य"] },
  { event_type := "योजना घोषणा",
    weight := ((6 : ℚ)/5),
    tier_1 := [
    "योजना", "घोषणा", "लागू", "शुभारंभ"],
    tier_2 := [
    "लाभार्थी", "वितरण", "खाता"],
    tier_3 := [
    "सरकार", "पहल"] },
  { event_type := "शुभकामना / बधाई",
    weight := ((4 : ℚ)/5),
    tier_1 := [
    "बधाई", "शुभकामनाएं", "हार्दिक"],
    tier_2 := [
    "प्रसन्नता", "खुशी"],
    tier_3 := [
    "मंगलमय"] },
  { event_type := "शोक संदेश",
    weight := ((13 : ℚ)/10),
    tier_1 := [
    "निधन", "शोक", "दुखद", "श्रद्धांजलि", "ईश्वर"],
    tier_2 := [
    "आत्मा", "शांति", "संवेदना"],
    tier_3 := [
    "परिवार"] },
  { event_type := "जन्मदिन शुभकामना",
    weight := ((6 : ℚ)/5),
    tier_1 := [
    "जन्मदिन", "अवतरण दिवस", "दीर्घायु"],
    tier_2 := [
    "स्वस्थ", "जीवन"],
    tier_3 := [
    "कामना"] },
  { event_type := "सम्मान / Felicitation",
    weight := ((11 : ℚ)/10),
    tier_1 := [
    "सम्मान", "पुरस्कार", "सम्मानित", "प्रशस्ति"],
    tier_2 := [
    "गौरव", "उपलब्धि"],
    tier_3 := [
    "समारोह"] },
  { event_type := "निरीक्षण",
    weight := ((11 : ℚ)/10),
    tier_1 := [
    "निरीक्षण", "जायजा", "अवलोकन"],
    tier_2 := [
    "स्थल", "कार्य"],
    tier_3 := [
    "भ्रमण"] },
  { event_type := "प्रशासनिक समीक्षा बैठक",
    weight := ((6 : ℚ)/5),
    tier_1 := [
    "कलेक्टर", "एसपी", "कमिश्नर", "समीक्षा बैठक", "टीएल"],
    tier_2 := [
    "निर्देश", "पालन", "रिपोर्ट"],
    tier_3 := [
    "विभाग"] },
  { event_type := "रैली",
    weight := ((11 : ℚ)/10),
    tier_1 := [
    "रैली", "जुलूस", "प्रदर्शन", "सभा"],
    tier_2 := [
    "नारेबाजी", "भीड़"],
    tier_3 := [
    "शामिल"] },
  { event_type := "चुनाव प्रचार",
    weight := ((6 : ℚ)/5),
    tier_1 := [
    "प्रचार", "जनसंपर्क", "वोट", "मतदान"],
    tier_2 := [
    "प्रत्याशी", "उम्मीदवार"],
    tier_3 := [
    "समर्थन"] }]

/-- `SCHEME_PATTERNS` (dict in insertion order; pattern → canonical name). -/
def SCHEME_PATTERNS : List (String × String) := [
    ("पीएम\\s*आवास", "प्रधानमंत्री आवास योजना"),
    ("PMAY", "प्रधानमंत्री आवास योजना"),
    ("महतारी\\s*वंदन", "महतारी वंदन योजना"),
    ("किसान\\s*न्याय", "राजीव गांधी किसान न्याय योजना"),
    ("गोधन\\s*न्याय", "गोधन न्याय योजना"),
    ("मनरेगा", "मनरेगा"),
    ("MNREGA", "मनरेगा"),
    ("आयुष्मान", "आयुष्मान भारत"),
    ("उज्ज्वला", "प्रधानमंत्री उज्ज्वला योजना"),
    ("जन\\s*धन", "प्रधानमंत्री जन धन योजना"),
    ("स्वच्छ\\s*भारत", "स्वच्छ भारत मिशन"),
    ("जल\\s*जीवन", "जल जीवन मिशन"),
    ("GST", "GST")]

/-- `WORD_BUCKETS`. -/
def WORD_BUCKETS : List (String × List String) := [
    ("agriculture", [
    "किसान", "कृषि", "धान", "फसल", "बीज", "खाद",
    "सिंचाई", "बोनस", "समर्थन मूल्य", "MSP"]),
    ("education", [
    "शिक्षा", "स्कूल", "कॉलेज", "विद्यार्थी", "छात्र", "शिक्षक",
    "भर्ती", "परीक्षा", "परिणाम"]),
    ("health", [
    "स्वास्थ्य", "अस्पताल", "इलाज", "डॉक्टर", "दवा", "मेडिकल",
    "एम्बुलेंस", "टीकाकरण"]),
    ("infrastructure", [
    "सड़क", "बिजली", "पानी", "निर्माण", "पुल", "भवन",
    "रेलवे", "कनेक्टिविटी"]),
    ("welfare", [
    "राशन", "पेंशन", "आवास", "गरीब", "कल्याण", "सहायता",
    "अनुदान"]),
    ("governance", [
    "प्रशासन", "योजना", "बैठक", "समीक्षा", "निरीक्षण", "उद्घाटन",
    "लोकार्पण"]),
    ("security", [
    "पुलिस", "नक्सल", "सुरक्षा", "कानून", "अपराध", "गिरफ्तार",
    "जवान"]),
    ("culture", [
    "संस्कृति", "त्योहार", "परंपरा", "मेला", "महोत्सव", "कला",
    "पर्यटन"]),
    ("employment", [
    "रोजगार", "नौकरी", "भर्ती", "स्वरोजगार", "कौशल", "प्रशिक्षण"]),
    ("development", [
    "विकास", "प्रगति", "सौगात", "आधारशिला", "विकसित"])]

/-- `COMMUNITIES`. -/
def COMMUNITIES : List (String × List String) := [
    ("farmers", [
    "किसान", "कृषक", "अन्नदाता"]),
    ("women", [
    "महिला", "नारी", "माता", "बहन", "बेटी", "शक्ति",
    "महतारी"]),
    ("youth", [
    "युवा", "छात्र", "विद्यार्थी", "बेरोजगार"]),
    ("scheduled_tribes", [
    "आदिवासी", "वनवासी", "जनजाति", "ST"]),
    ("scheduled_castes", [
    "दलित", "अनुसूचित जाति", "SC"]),
    ("obc", [
    "पिछड़ा वर्ग", "OBC", "साहू", "कुर्मी", "यादव"]),
    ("general", [
    "सामान्य वर्ग", "सवर्ण"]),
    ("students", [
    "छात्र", "छात्राएं", "विद्यार्थी"])]

/-- `ORGANIZATIONS`. -/
def ORGANIZATIONS : List (String × List String) := [
    ("political", [
    "भाजपा", "कांग्रेस", "बीजेपी", "INC", "आप", "बसपा",
    "जकांछ"]),
    ("government", [
    "सरकार", "शासन", "प्रशासन", "विभाग", "मंत्रालय", "आयोग",
    "निगम", "मंडल"]),
    ("corporate", [
    "अडानी", "अंबानी", "टाटा", "जिंदल", "बालको", "एनटीपीसी",
    "SECL"]),
    ("ngo", [
    "समिति", "संगठन", "संघ", "फाउंडेशन", "ट्रस्ट", "सेवा"])]

/-- Per-cluster score of `MultiSignalEventDetector.detect`: capped tier-1/2/3
keyword sums, multiplied by the cluster weight. -/
def clusterScore (tm : TextModel) (c : Cluster) : ℚ :=
  ((if 0 < c.tier_1.countP tm.occurs
      then min ((c.tier_1.countP tm.occurs : ℚ) * (6/10)) 1 else 0)
   + (if 0 < c.tier_2.countP tm.occurs
      then min ((c.tier_2.countP tm.occurs : ℚ) * (3/10)) (6/10) else 0)
   + (if 0 < c.tier_3.countP tm.occurs
      then min ((c.tier_3.countP tm.occurs : ℚ) * (1/10)) (3/10) else 0))
  * c.weight

/-- The `scores` dict of `detect` (cluster order kept): only clusters with a
strictly positive score enter, capped at 1. -/
def detectScores (tm : TextModel) : List (String × ℚ) :=
  EVENT_KEYWORD_CLUSTERS_WEIGHTED.filterMap (fun c =>
    if 0 < clusterScore tm c then some (c.event_type, min (clusterScore tm c) 1)
    else none)

/-- `sorted(scores.items(), key=lambda x: x[1], reverse=True)`: a stable
descending sort by score (insertion sort with the "comes no later" relation
is stable, like Python's sort). -/
def sortEventsDesc (l : List (String × ℚ)) : List (String × ℚ) :=
  l.insertionSort (fun a b => b.2 ≤ a.2)

/-- `MultiSignalEventDetector.detect`: `(primary, confidence, secondary)`.
Zero matches everywhere → ("अन्य", 0.3, []). Otherwise the top-scoring
cluster is primary and up to three further clusters scoring above 0.4 are
secondary. -/
def detect (tm : TextModel) : String × ℚ × List String :=
  match sortEventsDesc (detectScores tm) with
  | [] => ("अन्य", 3/10, [])
  | (e, s) :: rest =>
    (e, s, ((rest.filter (fun p => (2:ℚ)/5 < p.2)).map Prod.fst).take 3)

/-- Python `sorted` on a deduplicated list of strings (ascending, code-point
lexicographic, as Python compares `str`). -/
def pySortedStrings (l : List String) : List String :=
  l.insertionSort (· ≤ ·)

/-- `EnhancedEntityExtractor.extract_schemes`:
`sorted(set(canonical for matching patterns))`. -/
def extract_schemes (tm : TextModel) : List String :=
  pySortedStrings ((SCHEME_PATTERNS.filter (fun p => tm.research p.1)).map
    Prod.snd).dedup

/-- Shared shape of `extract_word_buckets` / `extract_communities` /
`extract_organizations` / `extract_target_groups`: the sorted names of the
table entries with at least one keyword occurring. -/
def bucketNames (table : List (String × List String)) (tm : TextModel) :
    List String :=
  pySortedStrings ((table.filter (fun b => b.2.any tm.occurs)).map Prod.fst).dedup

/-- The `parsed_data` dict assembled by `GeminiParserFinal.parse_tweet`
(fields independent of the mutable stats; the `event_date` copy of the
tweet's timestamp prefix and the constant bookkeeping fields are kept as
written). -/
structure ParsedData where
  event_type : String
  event_type_secondary : List String
  location : Option Loc
  people_mentioned : List String
  people_canonical : List String
  schemes_mentioned : List String
  word_buckets : List String
  target_groups : List String
  communities : List String
  organizations : List String
  hierarchy_path : List String
  visit_count : ℕ
  confidence : ℚ
  review_status : String
  needs_review : Bool
  content_mode : String
  is_other_original : Bool
  is_rescued_other : Bool
  rescue_tag : Option String
  rescue_confidence_bonus : ℚ
  semantic_location_used : Bool
  location_type : String
  deriving DecidableEq

/-- Stages 3–5 of `parse_tweet` after event detection (`d`), location
resolution (`lr`) and the entity extractions have produced their values:
rescue reassignment, the consensus signal dict, confidence scoring, review
routing and assembly of `parsed_data`. -/
def parseBody (d : String × ℚ × List String) (lr : Option Loc × ℚ)
    (ri : RescueInfo) (schemes wb tgs comms orgs : List String) : ParsedData :=
  let primary := if ri.is_rescued then ri.event_type else d.1
  let content_mode := if ri.is_rescued then ri.content_mode
    else "डिजिटल / सोशल-मीडिया पोस्ट"
  let rescue_bonus := if ri.is_rescued then ri.confidence_bonus else 0
  let signals : List (String × Option ℚ) :=
    [("keyword", some d.2.1),
     ("hierarchy", some (if lr.1.isSome then lr.2 else 0)),
     ("rescue", some rescue_bonus),
     ("dictionary", some 0)]
  let final := calculate signals
  let rs := determine_review_status final primary
  { event_type := primary,
    event_type_secondary := d.2.2,
    location := lr.1,
    people_mentioned := [],
    people_canonical := [],
    schemes_mentioned := schemes,
    word_buckets := wb,
    target_groups := tgs,
    communities := comms,
    organizations := orgs,
    hierarchy_path := match lr.1 with | some l => l.hierarchy_path | none => [],
    visit_count := 1,
    confidence := pyRound2 final,
    review_status := rs.1,
    needs_review := rs.2,
    content_mode := content_mode,
    is_other_original := decide (primary = "अन्य") && !ri.is_rescued,
    is_rescued_other := ri.is_rescued,
    rescue_tag := ri.rescue_tag,
    rescue_confidence_bonus := rescue_bonus,
    semantic_location_used := false,
    location_type := match lr.1 with | some l => l.location_type | none => "" }

/-- `GeminiParserFinal.parse_tweet`, pure view (cf. `parseTweetSt`). -/
def parseTweet (g : GeoData) (tm : TextModel) : ParsedData :=
  let d := detect tm
  parseBody d (resolve g tm) (rescue tm d.1) (extract_schemes tm)
    (bucketNames WORD_BUCKETS tm) (bucketNames COMMUNITIES tm)
    (bucketNames COMMUNITIES tm) (bucketNames ORGANIZATIONS tm)

/-- The `self.stats` counters of `GeoHierarchyResolver`. -/
structure ResolverStats where
  dict_hits : ℕ
  hierarchy_hits : ℕ
  not_found : ℕ
  deriving DecidableEq

/-- `GeoHierarchyResolver.resolve` with its mutation of `self.stats` made
explicit. -/
def resolveSt (g : GeoData) (tm : TextModel) (s : ResolverStats) :
    (Option Loc × ℚ) × ResolverStats :=
  match select_best_match tm (resolveMatches g tm) with
  | some best => ((some best.1, best.2.1),
      { s with hierarchy_hits := s.hierarchy_hits + 1 })
  | none => ((none, 0), { s with not_found := s.not_found + 1 })

/-- A `collections.Counter` increment. -/
def bumpCounter : List (String × ℕ) → String → List (String × ℕ)
  | [], k => [(k, 1)]
  | (a, n) :: t, k => if a = k then (a, n + 1) :: t else (a, n) :: bumpCounter t k

/-- The mutable `self.stats` of `GeminiParserFinal` (processing times, which
depend on the wall clock and never flow into `parsed_data`, are not kept). -/
structure ParserStats where
  resolver : ResolverStats
  event_distribution : List (String × ℕ)
  location_type_distribution : List (String × ℕ)
  deriving DecidableEq

/-- `GeminiParserFinal.parse_tweet` with the mutations of the shared stats
made explicit: the returned annotations plus the updated stats. -/
def parseTweetSt (g : GeoData) (tm : TextModel) (st : ParserStats) :
    ParsedData × ParserStats :=
  let d := detect tm
  let lrs := resolveSt g tm st.resolver
  let pd := parseBody d lrs.1 (rescue tm d.1) (extract_schemes tm)
    (bucketNames WORD_BUCKETS tm) (bucketNames COMMUNITIES tm)
    (bucketNames COMMUNITIES tm) (bucketNames ORGANIZATIONS tm)
  (pd,
   { st with
     resolver := lrs.2,
     event_distribution := bumpCounter st.event_distribution pd.event_type,
     location_type_distribution :=
       match lrs.1.1 with
       | some l => bumpCounter st.location_type_distribution l.location_type
       | none => st.location_type_distribution })



/-- `MANUAL_VILLAGE_MAPPING` (dict in insertion order): curated Hindi aliases
pointing at English village keys. -/
def MANUAL_VILLAGE_MAPPING : List (String × String) := [
    ("सिलोतरा", "Siltara"),
    ("कुकुर्दा", "Kukurda"),
    ("लैलूंगा", "Lailunga"),
    ("तमनार", "Tamnar"),
    ("पत्थलगांव", "Pathalgaon"),
    ("धरमजयगढ़", "Dharamjaigarh"),
    ("बस्तर", "Bastar"),
    ("कोंडागाँव", "Kondagaon"),
    ("कोंटा", "Konta"),
    ("गीदम", "Geedam"),
    ("बसना", "Basna"),
    ("मनेंद्रगढ़", "Manendragarh"),
    ("नारायणपुर", "Narayanpur"),
    ("भानुप्रतापपुर", "Bhanupratappur"),
    ("डोंगरगढ़", "Dongargarh"),
    ("खैरागढ़", "Khairagarh"),
    ("पेंड्रा", "Pendra"),
    ("मरवाही", "Marwahi"),
    ("सारंगढ़", "Sarangarh"),
    ("बिलाईगढ़", "Bilaigarh"),
    ("शक्ति", "Sakti"),
    ("मोहला", "Mohla"),
    ("मानपुर", "Manpur"),
    ("रायपुर", "Raipur")]

/-- One flat NDJSON row as `_build_village_index` reads it: `village` is
`row.get("village")`, `village_hindi` the optional
`row["variants"]["village"].get("hindi")`. -/
structure VillageRow where
  village : Option String
  village_hindi : Option String
  district : Option String
  block : Option String
  gram_panchayat : Option String
  deriving DecidableEq

/-- The `loc_data` dict `_build_village_index` builds for a row. The last
hierarchy element is the raw `v_name_en` value; like the f-strings, a Python
`None` is rendered as the string "None" in this model. -/
def mkVillageLoc (r : VillageRow) : LocData :=
  { canonical := r.village,
    district := r.district, has_district := true,
    block := r.block, gp := r.gram_panchayat, assembly := none,
    ulb_type := none, ltype := "rural",
    hierarchy_path := ["छत्तीसगढ़",
      pyStr r.district ++ " जिला",
      pyStr r.block ++ " विकासखंड",
      pyStr r.gram_panchayat ++ " पंचायत",
      pyStr r.village],
    has_hierarchy_path := true,
    ward := none, zone := none }

/-- A Python dict assignment `index[k] = v` on a function-typed index. -/
def updateFn (f : String → Option LocData) (k : String) (v : LocData) :
    String → Option LocData :=
  fun x => if x = k then some v else f x

/-- The aliases a row actually registers: the English name when truthy, then
the Hindi variant when truthy. -/
def aliasesOf (r : VillageRow) : List String :=
  (match r.village with
   | some n => if n ≠ "" then [n] else []
   | none => []) ++
  (match r.village_hindi with
   | some n => if n ≠ "" then [n] else []
   | none => [])

/-- The per-row body of the `_build_village_index` loop: register the row's
`loc_data` under its English name, then under its Hindi name. -/
def indexRow (f : String → Option LocData) (r : VillageRow) :
    String → Option LocData :=
  let loc := mkVillageLoc r
  let f₁ := match r.village with
    | some n => if n ≠ "" then updateFn f n loc else f
    | none => f
  match r.village_hindi with
  | some n => if n ≠ "" then updateFn f₁ n loc else f₁
  | none => f₁

/-- The loop of `_build_village_index` over all rows (empty dict start). -/
def buildVillageIndexBase (rows : List VillageRow) : String → Option LocData :=
  rows.foldl indexRow (fun _ => none)

/-- The trailing `MANUAL_VILLAGE_MAPPING` pass of `_build_village_index`:
`if english_name in index: index[hindi_name] = index[english_name]`. -/
def manualFold (l : List (String × String))
    (f : String → Option LocData) : String → Option LocData :=
  l.foldl (fun f hm =>
    match f hm.2 with
    | some l => updateFn f hm.1 l
    | none => f) f

/-- `GeoHierarchyResolver._build_village_index`. -/
def buildVillageIndex (rows : List VillageRow) : String → Option LocData :=
  manualFold MANUAL_VILLAGE_MAPPING (buildVillageIndexBase rows)

/-- `LocationMatcher._build_location_index` from
`src/KnowledgeBank/source_code/location_matcher.py`: a list-valued index
(`index[variant].append(record)`), one fold step per source record with its
generated name variants (the normalisation helpers producing the variants are
abstracted as the supplied variant lists). -/
def locInnerStep {α : Type} (rec : α) (idx : String → List α) (v : String) :
    String → List α :=
  fun y => if y = v then idx y ++ [rec] else idx y

/-- One outer step of `_build_location_index`: append the record under every
one of its name variants. -/
def locOuterStep {α : Type} (idx : String → List α) (e : List String × α) :
    String → List α :=
  e.1.foldl (locInnerStep e.2) idx

/-- The full fold of `_build_location_index` over all source records. -/
def buildLocationIndex {α : Type} (entries : List (List String × α)) :
    String → List α :=
  entries.foldl locOuterStep (fun _ => [])

/-- A village "Rampur" in Durg district. -/
def rowRampurDurg : VillageRow :=
  { village := some "Rampur", village_hindi := some "रामपुर",
    district := some "Durg", block := some "Durg",
    gram_panchayat := some "Rampur" }

/-- A homonymous village "Rampur" in Bastar district, loaded later. -/
def rowRampurBastar : VillageRow :=
  { village := some "Rampur", village_hindi := some "रामपुर",
    district := some "Bastar", block := some "Jagdalpur",
    gram_panchayat := some "Rampur" }

/-- `vip_names` from `EntityExtractorV2.extract_people` (a Python set
literal, in written order; only membership matters since the result is
sorted). -/
def vip_names : List String := [
    "रमन सिंह", "विष्णु देव साय", "केदार कश्यप",
    "के. केदार कश्यप", "द्रौपदी मुर्मु", "द्रौपदी मुर्मू",
    "नरेंद्र मोदी", "अमित शाह", "भूपेश बघेल",
    "अरुण साव", "अजय चंद्राकर", "रेणुका सिंह",
    "ओम प्रकाश चौधरी", "तोखन साहू", "रमेन डेका",
    "दुर्गा दास उइके", "रामविचार नेताम", "चिंतामणि महाराज",
    "नितिन नबीन", "सम्राट चौधरी", "नीतीश कुमार",
    "विजय सिन्हा", "पंकज चौधरी", "जगत प्रकाश नड्डा",
    "ब्रजेश गुप्ता", "रायमुनी भगत", "सरिता मुरारी नायक",
    "संजय भूषण पाण्डेय", "अभिलाषा कैलाश नायक", "किरण सिंह देव",
    "गोपाल कृष्ण गोखले", "दयाल दास बघेल"]

/-- `absolute_garbage_standalone` from `extract_people`. -/
def absolute_garbage_standalone : List String := [
    "उप", "गृह", "केंद्रीय", "राज्य", "के",
    "की", "का", "को", "से", "ने",
    "में", "पर", "सत्र", "भवन", "जी",
    "मंत्री", "आदरणीय", "माननीय", "मुख्यमंत्री", "प्रधानमंत्री",
    "उपमुख्यमंत्री", "राष्ट्रपति", "राज्यपाल"]

/-- `str.split()` on the space-separated captured names. -/
def pySplit (s : String) : List String :=
  (s.splitOn " ").filter (fun w => w ≠ "")

/-- The multiset of names `extract_people` accumulates in its `people` set:
VIPs from the loaded list found in the text, hard-coded `vip_names` found in
the text, and honorific-pattern captures that are not all-garbage and have at
least two words. (`contains s` models the Python substring test `s in text`;
`matches` models the honorific-regex `findall` captures.) -/
def peopleCollected (vip_list : List String) (contains : String → Bool)
    (captures : List String) : List String :=
  vip_list.filter contains ++ vip_names.filter contains ++
  (captures.map String.trim).filter (fun m =>
    (!(pySplit m).all (fun w => decide (w ∈ absolute_garbage_standalone))) &&
      decide (2 ≤ (pySplit m).length))

/-- `EntityExtractorV2.extract_people`: `sorted(list(people))[:8]`. -/
def extract_people (vip_list : List String) (contains : String → Bool)
    (captures : List String) : List String :=
  (pySortedStrings (peopleCollected vip_list contains captures).dedup).take 8

/-- A text containing exactly nine of the hard-coded VIP names. -/
def c10contains : String → Bool := fun s => decide (s ∈
  ["रमन सिंह", "विष्णु देव साय", "केदार कश्यप", "द्रौपदी मुर्मु",
   "नरेंद्र मोदी", "अमित शाह", "भूपेश बघेल", "अरुण साव", "नीतीश कुमार"])


-- ==========================================================================
-- Theorems
-- ==========================================================================

theorem lookup_mem {α β : Type} [BEq α] [LawfulBEq α] {k : α} {v : β} :
    ∀ {l : List (α × β)}, List.lookup k l = some v → (k, v) ∈ l := by
  intro l
  induction l with
  | nil => simp [List.lookup]
  | cons p t ih =>
    rcases p with ⟨a, b⟩
    simp only [List.lookup]
    rcases h : (k == a) with _ | _
    · intro hv
      exact List.mem_cons_of_mem _ (ih hv)
    · intro hv
      have ha : k = a := eq_of_beq h
      have hb : b = v := by simpa using hv
      subst ha; subst hb
      exact List.mem_cons_self _ _

theorem consensus_weights_pos : ∀ p ∈ CONSENSUS_WEIGHTS, 0 < p.2 := by
  intro p hp
  fin_cases hp <;> norm_num

theorem mem_presentSignals {signals : List (String × Option ℚ)} {p : ℚ × ℚ}
    (hp : p ∈ presentSignals signals) :
    ∃ nw ∈ CONSENSUS_WEIGHTS, (nw.1, some p.1) ∈ signals ∧ p.2 = nw.2 := by
  rcases List.mem_filterMap.mp hp with ⟨nw, hnw, heq⟩
  refine ⟨nw, hnw, ?_, ?_⟩
  · rcases h : List.lookup nw.1 signals with _ | v
    · rw [h] at heq; simp at heq
    · rcases v with _ | q
      · rw [h] at heq; simp at heq
      · rw [h] at heq
        simp only [Option.some.injEq] at heq
        have : q = p.1 := by rw [← heq]
        subst this
        exact lookup_mem h
  · rcases h : List.lookup nw.1 signals with _ | v
    · rw [h] at heq; simp at heq
    · rcases v with _ | q
      · rw [h] at heq; simp at heq
      · rw [h] at heq
        simp only [Option.some.injEq] at heq
        rw [← heq]

theorem sum_bounds (L : List (ℚ × ℚ))
    (h : ∀ p ∈ L, (0 ≤ p.1 ∧ p.1 ≤ 1) ∧ 0 < p.2) :
    0 ≤ (L.map (fun p => p.1 * p.2)).sum ∧
    (L.map (fun p => p.1 * p.2)).sum ≤ (L.map Prod.snd).sum ∧
    0 ≤ (L.map Prod.snd).sum := by
  induction L with
  | nil => simp
  | cons p t ih =>
    have hp := h p (List.mem_cons_self _ _)
    have ht := ih (fun q hq => h q (List.mem_cons_of_mem _ hq))
    simp only [List.map_cons, List.sum_cons]
    refine ⟨?_, ?_, ?_⟩
    · have : 0 ≤ p.1 * p.2 := mul_nonneg hp.1.1 (le_of_lt hp.2)
      linarith [ht.1]
    · have : p.1 * p.2 ≤ p.2 := by
        calc p.1 * p.2 ≤ 1 * p.2 :=
              mul_le_mul_of_nonneg_right hp.1.2 (le_of_lt hp.2)
        _ = p.2 := one_mul _
      linarith [ht.2.1]
    · linarith [ht.2.2, hp.2]

/-- C1: for every signal mapping whose values lie in [0,1], the consensus
confidence scorer returns the weighted sum of the present signals divided by
the sum of the weights of exactly those present signals, multiplied by the
1.1 boost when at least 3 signal values exceed 0.8 and clamped at 1; and the
returned confidence always lies in [0,1] (in the degenerate case where no
weighted signal is present the scorer returns the constant 0.3, also in
[0,1]). -/
theorem C1_consensus_confidence (signals : List (String × Option ℚ))
    (h : ∀ p ∈ signals, ∀ v, p.2 = some v → 0 ≤ v ∧ v ≤ 1) :
    (0 ≤ calculate signals ∧ calculate signals ≤ 1) ∧
    (totalWeight signals ≠ 0 →
      calculate signals =
        min ((if 3 ≤ highConfCount signals then (11:ℚ)/10 else 1) *
             (weightedSum signals / totalWeight signals)) 1) := by
  have hbounds : ∀ p ∈ presentSignals signals, (0 ≤ p.1 ∧ p.1 ≤ 1) ∧ 0 < p.2 := by
    intro p hp
    rcases mem_presentSignals hp with ⟨nw, hnw, hmem, hw⟩
    refine ⟨h _ hmem p.1 rfl, ?_⟩
    rw [hw]; exact consensus_weights_pos nw hnw
  have hsums := sum_bounds (presentSignals signals) hbounds
  have hws : 0 ≤ weightedSum signals := hsums.1
  have hwt : weightedSum signals ≤ totalWeight signals := hsums.2.1
  have htw : 0 ≤ totalWeight signals := hsums.2.2
  constructor
  · by_cases h0 : totalWeight signals = 0
    · simp only [calculate, h0, if_pos]
      norm_num
    · have htwpos : 0 < totalWeight signals := lt_of_le_of_ne htw (Ne.symm h0)
      have hbase0 : 0 ≤ weightedSum signals / totalWeight signals :=
        div_nonneg hws (le_of_lt htwpos)
      have hbase1 : weightedSum signals / totalWeight signals ≤ 1 :=
        (div_le_one htwpos).mpr hwt
      simp only [calculate, h0, if_neg, ite_false]
      constructor
      · apply le_min _ (by norm_num)
        by_cases hb : 3 ≤ highConfCount signals
        · simp only [hb, if_pos]
          positivity
        · simp only [hb, if_neg, ite_false]
          exact hbase0
      · exact min_le_right _ _
  · intro h0
    simp only [calculate, h0, if_neg, ite_false]
    by_cases hb : 3 ≤ highConfCount signals
    · simp only [hb, if_pos]
      ring_nf
    · simp only [hb, if_neg, ite_false, one_mul]

/-- C1 witness: the hypotheses of `C1_consensus_confidence` hold at the
concrete signal dict `C1sig`. -/
theorem C1_consensus_confidence_witness :
    (0 ≤ calculate C1sig ∧ calculate C1sig ≤ 1) ∧
    (totalWeight C1sig ≠ 0 →
      calculate C1sig =
        min ((if 3 ≤ highConfCount C1sig then (11:ℚ)/10 else 1) *
             (weightedSum C1sig / totalWeight C1sig)) 1) := by
  apply C1_consensus_confidence
  intro p hp v hv
  fin_cases hp <;>
    (simp only [Option.some.injEq] at hv; subst hv; constructor <;> norm_num)

/-- C2: review routing uses the category-specific bar — 0.92 for the five
high-precision categories, 0.85 (`CONFIDENCE_AUTO_APPROVE`) for every other
category — and `needs_review` is true (with verdict "pending") iff the
confidence is strictly below that bar; at or above the bar the verdict is
"auto_approved" with `needs_review` false. -/
theorem C2_review_routing (c : ℚ) (e : String) :
    (reviewThreshold e =
      if e ∈ ["शोक संदेश", "जन्मदिन शुभकामना", "आंतरिक सुरक्षा / पुलिस",
              "खेल / गौरव", "आपदा / दुर्घटना"]
      then (92:ℚ)/100 else (85:ℚ)/100) ∧
    ((determine_review_status c e).2 = true ↔ c < reviewThreshold e) ∧
    (c < reviewThreshold e → determine_review_status c e = ("pending", true)) ∧
    (reviewThreshold e ≤ c →
      determine_review_status c e = ("auto_approved", false)) := by
  refine ⟨rfl, ?_, ?_, ?_⟩
  · unfold determine_review_status
    by_cases hle : reviewThreshold e ≤ c
    · simp only [hle, if_pos]
      constructor
      · intro hfalse; cases hfalse
      · intro hlt; exact absurd hle (not_le.mpr hlt)
    · simp only [hle, if_neg, ite_false]
      exact ⟨fun _ => not_le.mp hle, fun _ => trivial⟩
  · intro hlt
    unfold determine_review_status
    simp only [not_le.mpr hlt, if_neg, ite_false]
  · intro hle
    unfold determine_review_status
    simp only [hle, if_pos]

/-- C2 witness: a condolence (high-precision) post with confidence 0.85 is
routed to review, though 0.85 auto-approves an ordinary category. -/
theorem C2_review_routing_witness :
    (determine_review_status ((85:ℚ)/100) "शोक संदेश").2 = true ∧
    (determine_review_status ((85:ℚ)/100) "बैठक").2 = false := by
  constructor
  · apply ((C2_review_routing ((85:ℚ)/100) "शोक संदेश").2.1).mpr
    have ht : reviewThreshold "शोक संदेश" = (92:ℚ)/100 := by
      simp [reviewThreshold, HIGH_PRECISION_EVENTS]
    rw [ht]; norm_num
  · have h := (C2_review_routing ((85:ℚ)/100) "बैठक").2.2.2
    have ht : reviewThreshold "बैठक" = (85:ℚ)/100 := by
      simp [reviewThreshold, HIGH_PRECISION_EVENTS, CONFIDENCE_AUTO_APPROVE]
    rw [h (by rw [ht])]

theorem foldl_pyMax_mem {α : Type} (score : α → ℚ) :
    ∀ (xs : List α) (b : α),
      xs.foldl (fun b y => if score b < score y then y else b) b ∈ b :: xs := by
  intro xs
  induction xs with
  | nil => intro b; simp
  | cons x t ih =>
    intro b
    simp only [List.foldl_cons]
    rcases List.mem_cons.mp (ih (if score b < score x then x else b)) with h1 | h1
    · rw [h1]
      by_cases hc : score b < score x
      · simp only [hc, if_pos]
        exact List.mem_cons_of_mem _ (List.mem_cons_self _ _)
      · simp only [hc, if_neg, ite_false]
        exact List.mem_cons_self _ _
    · exact List.mem_cons_of_mem _ (List.mem_cons_of_mem _ h1)

theorem foldl_pyMax_ge {α : Type} (score : α → ℚ) :
    ∀ (xs : List α) (b : α),
      score b ≤ score (xs.foldl (fun b y => if score b < score y then y else b) b) ∧
      ∀ y ∈ xs,
        score y ≤ score (xs.foldl (fun b y => if score b < score y then y else b) b) := by
  intro xs
  induction xs with
  | nil => intro b; exact ⟨le_refl _, by simp⟩
  | cons x t ih =>
    intro b
    simp only [List.foldl_cons]
    have hstep := ih (if score b < score x then x else b)
    have hb : score b ≤ score (if score b < score x then x else b) := by
      by_cases hc : score b < score x
      · simp only [hc, if_pos]; exact le_of_lt hc
      · simp only [hc, if_neg, ite_false]; exact le_refl _
    have hx : score x ≤ score (if score b < score x then x else b) := by
      by_cases hc : score b < score x
      · simp only [hc, if_pos]; exact le_refl _
      · simp only [hc, if_neg, ite_false]; exact not_lt.mp hc
    refine ⟨le_trans hb hstep.1, ?_⟩
    intro y hy
    rcases List.mem_cons.mp hy with h1 | h1
    · rw [h1]; exact le_trans hx hstep.1
    · exact hstep.2 y h1

theorem pyMax_mem {α : Type} (score : α → ℚ) (l : List α) (x : α)
    (h : pyMax score l = some x) : x ∈ l := by
  cases l with
  | nil => simp [pyMax] at h
  | cons a t =>
    simp only [pyMax, Option.some.injEq] at h
    rw [← h]
    exact foldl_pyMax_mem score t a

theorem pyMax_ge {α : Type} (score : α → ℚ) (l : List α) (x : α)
    (h : pyMax score l = some x) : ∀ y ∈ l, score y ≤ score x := by
  cases l with
  | nil => simp [pyMax] at h
  | cons a t =>
    simp only [pyMax, Option.some.injEq] at h
    intro y hy
    rw [← h]
    rcases List.mem_cons.mp hy with h1 | h1
    · rw [h1]; exact (foldl_pyMax_ge score t a).1
    · exact (foldl_pyMax_ge score t a).2 y h1

theorem pyMax_eq_none_iff {α : Type} (score : α → ℚ) (l : List α) :
    pyMax score l = none ↔ l = [] := by
  cases l <;> simp [pyMax]

theorem filterMap_none_of_forall {α β : Type} (f : α → Option β) :
    ∀ (l : List α), (∀ a ∈ l, f a = none) → l.filterMap f = [] := by
  intro l
  induction l with
  | nil => intro _; rfl
  | cons x t ih =>
    intro h
    rw [List.filterMap_cons, h x (List.mem_cons_self _ _)]
    exact ih (fun a ha => h a (List.mem_cons_of_mem _ ha))

theorem detect_no_keywords (tm : TextModel)
    (hkw : ∀ c ∈ EVENT_KEYWORD_CLUSTERS_WEIGHTED, ∀ kw,
      (kw ∈ c.tier_1 ∨ kw ∈ c.tier_2 ∨ kw ∈ c.tier_3) → tm.occurs kw = false) :
    detect tm = ("अन्य", 3/10, []) := by
  have h0 : detectScores tm = [] := by
    unfold detectScores
    apply filterMap_none_of_forall
    intro c hc
    have h1 : c.tier_1.countP tm.occurs = 0 := by
      rw [List.countP_eq_zero]
      intro a ha
      simp [hkw c hc a (Or.inl ha)]
    have h2 : c.tier_2.countP tm.occurs = 0 := by
      rw [List.countP_eq_zero]
      intro a ha
      simp [hkw c hc a (Or.inr (Or.inl ha))]
    have h3 : c.tier_3.countP tm.occurs = 0 := by
      rw [List.countP_eq_zero]
      intro a ha
      simp [hkw c hc a (Or.inr (Or.inr ha))]
    have hsc : clusterScore tm c = 0 := by
      unfold clusterScore
      rw [h1, h2, h3]
      norm_num
    simp [hsc]
  unfold detect
  rw [h0]
  rfl

/-- C3 (amended): on an "अन्य" post, the rescue engine computes for each tier
with at least one matching pattern the score
`min(matches/len(patterns),1)·weight`, adopts the maximal-scoring tier (the
earliest of the tiers in the fixed order sports_critical, security_critical,
admin_high, political_high on ties) if and only if that maximal score exceeds
0.5, and takes that tier's target category and confidence bonus. It does NOT
stop at the first tier in priority order whose match ratio exceeds 0.5: a
later tier with a higher score is chosen over an earlier tier whose ratio
already exceeds 0.5 (see the counterexample). -/
theorem C3_rescue_tier_selection (tm : TextModel) :
    ((rescue tm "अन्य").is_rescued = true ↔
      ∃ t ∈ tierScores tm, (1:ℚ)/2 < t.2.1) ∧
    ((rescue tm "अन्य").is_rescued = true →
      ∃ t ∈ tierScores tm,
        (rescue tm "अन्य").rescue_tag = some t.1 ∧
        (rescue tm "अन्य").event_type = t.2.2.target_event ∧
        (rescue tm "अन्य").confidence_bonus = t.2.2.confidence_boost ∧
        (1:ℚ)/2 < t.2.1 ∧
        ∀ u ∈ tierScores tm, u.2.1 ≤ t.2.1) := by
  have hne : ¬ ("अन्य" ≠ "अन्य") := by simp
  have hr : rescue tm "अन्य" =
      rescueStep "अन्य" (pyMax (fun x => x.2.1) (tierScores tm)) := by
    unfold rescue
    rw [if_neg hne]
  rcases hmax : pyMax (fun x : String × ℚ × TierConfig => x.2.1)
      (tierScores tm) with _ | best
  · rw [hmax] at hr
    have hnil : tierScores tm = [] := (pyMax_eq_none_iff _ _).mp hmax
    rw [hr]
    constructor
    · simp [rescueStep, defaultRescueInfo, hnil]
    · intro hfalse
      simp [rescueStep, defaultRescueInfo] at hfalse
  · rw [hmax] at hr
    by_cases hgt : (1:ℚ)/2 < best.2.1
    · have hr2 : rescue tm "अन्य" =
          { event_type := best.2.2.target_event,
            content_mode :=
              if strContains best.1 "sports" then "खेल / उपलब्धि पर प्रतिक्रिया"
              else if strContains best.1 "security" || strContains best.1 "political"
                then "नीति / वक्तव्य"
              else "मैदान-स्तर कार्यक्रम",
            is_rescued := true,
            rescue_tag := some best.1,
            confidence_bonus := best.2.2.confidence_boost } := by
        rw [hr]
        simp only [rescueStep, hgt, if_pos]
      rw [hr2]
      constructor
      · exact ⟨fun _ => ⟨best, pyMax_mem _ _ _ hmax, hgt⟩, fun _ => rfl⟩
      · intro _
        exact ⟨best, pyMax_mem _ _ _ hmax, rfl, rfl, rfl, hgt,
               pyMax_ge _ _ _ hmax⟩
    · have hr2 : rescue tm "अन्य" = defaultRescueInfo "अन्य" := by
        rw [hr]
        simp only [rescueStep, hgt, if_neg, ite_false]
      rw [hr2]
      constructor
      · constructor
        · intro hfalse
          simp [defaultRescueInfo] at hfalse
        · intro hex
          rcases hex with ⟨t, hmem, ht⟩
          exact absurd (lt_of_lt_of_le ht (pyMax_ge _ _ _ hmax t hmem)) hgt
      · intro hfalse
        simp [defaultRescueInfo] at hfalse

/-- C3 counterexample: the post text
"match win medal won olympic naxal martyr surrender encounter" (abstracted
by `tmC3`) is classified "अन्य" — every event-cluster keyword is Devanagari,
so none occurs in this ASCII text — and so enters the rescue engine. The
first tier of the priority list, sports_critical, has match ratio 3/4 > 1/2,
yet the engine adopts the later security_critical tier (score 1 beats 3/4),
refuting the claim that evaluation stops at the first tier whose match ratio
exceeds 0.5. -/
theorem C3_rescue_tier_selection_counterexample :
    detect tmC3 = ("अन्य", 3/10, []) ∧
    RESCUE_TIERS.map Prod.fst =
      ["sports_critical", "security_critical", "admin_high", "political_high"] ∧
    (tierScores tmC3).map (fun t => (t.1, t.2.1)) =
      [("sports_critical", (3:ℚ)/4), ("security_critical", (1:ℚ))] ∧
    (1:ℚ)/2 < 3/4 ∧
    (rescue tmC3 "अन्य").rescue_tag = some "security_critical" ∧
    (rescue tmC3 "अन्य").event_type = "आंतरिक सुरक्षा / पुलिस" := by
  have hts : (tierScores tmC3).map (fun t => (t.1, t.2.1)) =
      [("sports_critical", (3:ℚ)/4), ("security_critical", (1:ℚ))] := by
    simp [tierScores, RESCUE_TIERS, tmC3, List.filterMap_cons,
      List.countP_cons, List.countP_nil]
    norm_num [min_def]
  refine ⟨detect_no_keywords tmC3 (fun _ _ _ _ => rfl),
    by simp [RESCUE_TIERS], hts, by norm_num, ?_, ?_⟩ <;>
  · simp [rescue, rescueStep, tierScores, RESCUE_TIERS, tmC3, pyMax,
      List.filterMap_cons, List.countP_cons, List.countP_nil]
    norm_num [min_def]

/-- C3 witness: on a post matching all four security_critical patterns
(`tmW3`), the amended selection rule fires. -/
theorem C3_rescue_tier_selection_witness :
    (rescue tmW3 "अन्य").is_rescued = true := by
  apply (C3_rescue_tier_selection tmW3).1.mpr
  refine ⟨("security_critical", 1,
    { patterns := [
        "(माओवाद|naxal|नक्सल)", "(शहीद|martyr)",
        "(आत्मसमर्पण|surrender)", "(encounter|मुठभेड़)"],
      weight := (1 : ℚ),
      confidence_boost := (1 : ℚ)/4,
      target_event := "आंतरिक सुरक्षा / पुलिस" }), ?_, by norm_num⟩
  simp [tierScores, RESCUE_TIERS, tmW3, List.filterMap_cons,
    List.countP_cons, List.countP_nil]

/-- C4: for every post whose classifier returned any category other than
"अन्य", the rescue step returns the initial `rescue_info` dict unchanged —
the event category stays as given, `is_rescued` is false and the confidence
bonus is exactly 0. -/
theorem C4_rescue_never_fires_on_categorized (tm : TextModel) (e : String)
    (h : e ≠ "अन्य") :
    rescue tm e = defaultRescueInfo e ∧
    (rescue tm e).event_type = e ∧
    (rescue tm e).is_rescued = false ∧
    (rescue tm e).confidence_bonus = 0 := by
  have hr : rescue tm e = defaultRescueInfo e := by
    unfold rescue
    rw [if_pos h]
  exact ⟨hr, by rw [hr]; rfl, by rw [hr]; rfl, by rw [hr]; rfl⟩

/-- C4 witness: a post already classified "बैठक" passes through untouched. -/
theorem C4_rescue_never_fires_on_categorized_witness :
    rescue tmEmpty "बैठक" = defaultRescueInfo "बैठक" ∧
    (rescue tmEmpty "बैठक").event_type = "बैठक" ∧
    (rescue tmEmpty "बैठक").is_rescued = false ∧
    (rescue tmEmpty "बैठक").confidence_bonus = 0 :=
  C4_rescue_never_fires_on_categorized tmEmpty "बैठक" (by decide)

theorem flatMap_nil_of_forall {α β : Type} (f : α → List β) :
    ∀ (l : List α), (∀ a ∈ l, f a = []) → l.flatMap f = [] := by
  intro l
  induction l with
  | nil => intro _; rfl
  | cons x t ih =>
    intro h
    rw [List.flatMap_cons, h x (List.mem_cons_self _ _), List.nil_append]
    exact ih (fun a ha => h a (List.mem_cons_of_mem _ ha))

theorem findSome?_none {α β : Type} (f : α → Option β) :
    ∀ (l : List α), (∀ a ∈ l, f a = none) → l.findSome? f = none := by
  intro l
  induction l with
  | nil => intro _; rfl
  | cons x t ih =>
    intro h
    show (match f x with | some b => some b | none => t.findSome? f) = none
    rw [h x (List.mem_cons_self _ _)]
    exact ih (fun a ha => h a (List.mem_cons_of_mem _ ha))

/-- C5: when no extracted candidate hits the village, urban-body or district
index (and, for the V2 hybrid resolver, the landmark, entity-inference,
hierarchy and semantic tiers all come up empty), location resolution returns
no location together with a confidence of exactly 0 (and, in V2, the trace
"none").  Both resolvers are total Lean functions, so this failure mode is a
value, not an exception. -/
theorem C5_no_match_returns_null (g : GeoData) (tm : TextModel)
    (h : ∀ c ∈ tm.candidates, 2 ≤ c.length →
      g.village_index c = none ∧ g.ulb_index c = none ∧ g.district_map c = none)
    (landmark entityLoc : Option Loc) (geoLookup : String → Option Loc)
    (enableSemantic : Bool) (semanticBest : String → Option (String × ℚ))
    (hl : landmark = none) (he : entityLoc = none)
    (hg : ∀ c ∈ tm.candidates, geoLookup c = none)
    (hs : ∀ c ∈ tm.candidates, semanticBest c = none) :
    resolve g tm = (none, 0) ∧
    hybridResolve landmark entityLoc tm.candidates geoLookup enableSemantic
      semanticBest = (none, 0, "none") := by
  constructor
  · have hnil : resolveMatches g tm = [] := by
      unfold resolveMatches
      apply flatMap_nil_of_forall
      intro c hc
      unfold candidateMatches
      by_cases hlen : c.length < 2
      · rw [if_pos hlen]
      · rw [if_neg hlen]
        rcases h c hc (not_lt.mp hlen) with ⟨h1, h2, h3⟩
        rw [h1, h2, h3]
        rfl
    unfold resolve select_best_match
    rw [hnil]
    rfl
  · subst hl; subst he
    have hfind : tm.candidates.findSome? geoLookup = none :=
      findSome?_none _ _ hg
    have hsem : tm.candidates.findSome? (fun c =>
        if c.length < 3 then none
        else match semanticBest c with
          | some ns => (geoLookup ns.1).map (fun l => (l, ns.2))
          | none => none) = none := by
      apply findSome?_none
      intro c hc
      by_cases hlen : c.length < 3
      · simp only [hlen, if_pos]
      · simp only [hlen, if_neg, ite_false, hs c hc]
    unfold hybridResolve
    simp only [hfind, hsem]
    cases enableSemantic <;> rfl

/-- C5 witness: the empty gazetteer misses the candidate "रायपुर" of `tmC5`,
and every hybrid tier fails. -/
theorem C5_no_match_returns_null_witness :
    resolve gNone tmC5 = (none, 0) ∧
    hybridResolve none none tmC5.candidates (fun _ => none) true
      (fun _ => none) = (none, 0, "none") :=
  C5_no_match_returns_null gNone tmC5
    (fun _ _ _ => ⟨rfl, rfl, rfl⟩) none none (fun _ => none) true
    (fun _ => none) rfl rfl (fun _ _ => rfl) (fun _ _ => rfl)

theorem ruralShape_score (tm : TextModel) (m : Loc × ℚ × String)
    (hm : ruralShape tm m) :
    specificityScore "urban" tm m = 2 := by
  rcases hm with ⟨hty, hconf, hlen, ha1, ha2⟩
  unfold specificityScore
  rw [hconf, hlen]
  simp [hty, ha1, ha2]
  norm_num

theorem urbanShape_score_ge (tm : TextModel) (m : Loc × ℚ × String)
    (hm : urbanShape m) :
    (9:ℚ)/4 ≤ specificityScore "urban" tm m := by
  rcases hm with ⟨hty, hconf, hlen⟩
  unfold specificityScore
  rw [hconf]
  simp [hty]
  rcases hlen with h | h <;> rw [h] <;> split_ifs <;> norm_num

theorem districtShape_score (tm : TextModel) (m : Loc × ℚ × String)
    (hm : districtShape m) :
    specificityScore "urban" tm m = 29/20 := by
  rcases hm with ⟨hty, hconf, hlen⟩
  unfold specificityScore
  rw [hconf, hlen]
  simp [hty]
  norm_num

theorem ruralAdj_score (tm : TextModel) (m : Loc × ℚ × String)
    (hty : m.1.location_type = "rural") (hconf : m.2.1 = (19:ℚ)/20)
    (hlen : m.1.hierarchy_path.length = 5)
    (ha : tm.research
      ("(gram|panchayat)\\s+" ++ asciiLower (m.1.canonical.getD "")) = true) :
    specificityScore "urban" tm m = 3 := by
  unfold specificityScore
  rw [hconf, hlen]
  simp [hty, ha]
  norm_num

theorem urbanNoAdj_score (tm : TextModel) (m : Loc × ℚ × String)
    (hty : m.1.location_type = "urban") (hconf : m.2.1 = (9:ℚ)/10)
    (hlen : m.1.hierarchy_path.length = 3)
    (ha1 : tm.research ("(nagar|ward|zone|parshad|parishad)\\s+.*" ++
      asciiLower (m.1.canonical.getD "")) = false)
    (ha2 : tm.research (asciiLower (m.1.canonical.getD "") ++
      "\\s+(nagar|ward|zone|parshad|parishad)") = false) :
    specificityScore "urban" tm m = 9/4 := by
  unfold specificityScore
  rw [hconf, hlen]
  simp [hty, ha1, ha2]
  norm_num

/-- C7 (amended): when the candidate matches comprise village entries
(confidence 0.95, depth-5 path) none of which abuts a gram/panchayat marker
in the text, urban-body entries (confidence 0.90, depth 3–4) and district
entries (confidence 0.85), at least one urban-body entry is present, and the
post context is urban (more urban than rural vocabulary), the tie-break
selects an urban-body match. Without the no-adjacency proviso the claim is
false: the +1.0 administrative-marker adjacency bonus lets a village outscore
the urban body despite urban context (see the counterexample). -/
theorem C7_urban_context_tiebreak (tm : TextModel)
    (ms : List (Loc × ℚ × String))
    (hctx : detect_context tm = "urban")
    (hshape : ∀ m ∈ ms, ruralShape tm m ∨ urbanShape m ∨ districtShape m)
    (hurban : ∃ m ∈ ms, urbanShape m)
    (hrural : ∃ m ∈ ms, ruralShape tm m) :
    ∃ best, select_best_match tm ms = some best ∧
      best.1.location_type = "urban" := by
  rcases hurban with ⟨u, hu, hus⟩
  have hne : ms ≠ [] := by
    intro hmsnil; rw [hmsnil] at hu; exact absurd hu (List.not_mem_nil u)
  obtain ⟨best, hbest⟩ : ∃ b, select_best_match tm ms = some b := by
    unfold select_best_match pyMax
    cases ms with
    | nil => exact absurd rfl hne
    | cons a t => exact ⟨_, rfl⟩
  refine ⟨best, hbest, ?_⟩
  unfold select_best_match at hbest
  have hmem := pyMax_mem _ _ _ hbest
  have hge := pyMax_ge _ _ _ hbest u hu
  rw [hctx] at hge
  have hub : (9:ℚ)/4 ≤ specificityScore "urban" tm u := urbanShape_score_ge tm u hus
  rcases hshape best hmem with hb | hb | hb
  · exfalso
    have h2 : specificityScore "urban" tm best = 2 := ruralShape_score tm best hb
    rw [h2] at hge
    linarith
  · exact hb.1
  · exfalso
    have h145 : specificityScore "urban" tm best = 29/20 :=
      districtShape_score tm best hb
    rw [h145] at hge
    linarith

/-- C7 counterexample: on the post text (lower-cased)
"raipur gram siltara nagar nigam ward parshad", abstracted by `tmC7`, both
the village Siltara and the urban body Raipur are matched and the context is
urban (4 urban vs 1 rural context keyword), yet the resolver returns the
VILLAGE: the adjacency bonus for "gram siltara" lifts the village score to
3.0 against the urban body's 2.25, refuting the claim that the urban-body
match always wins under urban context. -/
theorem C7_urban_context_tiebreak_counterexample :
    detect_context tmC7 = "urban" ∧
    (format_location ldSiltara, (19:ℚ)/20, "hierarchy") ∈ resolveMatches gC7 tmC7 ∧
    (format_location ldRaipurULB, (9:ℚ)/10, "hierarchy") ∈ resolveMatches gC7 tmC7 ∧
    (format_location ldSiltara).location_type = "rural" ∧
    (format_location ldRaipurULB).location_type = "urban" ∧
    resolve gC7 tmC7 = (some (format_location ldSiltara), (19:ℚ)/20) := by
  have hms : resolveMatches gC7 tmC7 =
      [(format_location ldRaipurULB, (9:ℚ)/10, "hierarchy"),
       (format_location ldSiltara, (19:ℚ)/20, "hierarchy")] := by
    show (["Raipur", "Siltara"] : List String).flatMap (candidateMatches gC7 tmC7) = _
    rw [List.flatMap_cons, List.flatMap_cons, List.flatMap_nil]
    have h1 : candidateMatches gC7 tmC7 "Raipur" =
        [(format_location ldRaipurULB, (9:ℚ)/10, "hierarchy")] := by
      unfold candidateMatches
      rw [if_neg (by decide)]
      have hv : gC7.village_index "Raipur" = none := by decide
      have hd : gC7.district_map "Raipur" = none := by decide
      have hu : gC7.ulb_index "Raipur" = some ldRaipurULB := by decide
      rw [hv, hd, hu]
      show [] ++ [(format_location
        { ldRaipurULB with ward := tmC7.ward, zone := tmC7.zone },
        (9:ℚ)/10, "hierarchy")] ++ [] = _
      congr 1
    have h2 : candidateMatches gC7 tmC7 "Siltara" =
        [(format_location ldSiltara, (19:ℚ)/20, "hierarchy")] := by
      unfold candidateMatches
      rw [if_neg (by decide)]
      have hv : gC7.village_index "Siltara" = some ldSiltara := by decide
      have hd : gC7.district_map "Siltara" = none := by decide
      have hu : gC7.ulb_index "Siltara" = none := by decide
      rw [hv, hd, hu]
      rfl
    rw [h1, h2]
    rfl
  have hctx : detect_context tmC7 = "urban" := by decide
  have hsR : specificityScore "urban" tmC7
      (format_location ldRaipurULB, (9:ℚ)/10, "hierarchy") = 9/4 :=
    urbanNoAdj_score _ _ (by decide) rfl (by decide) (by decide) (by decide)
  have hsS : specificityScore "urban" tmC7
      (format_location ldSiltara, (19:ℚ)/20, "hierarchy") = 3 :=
    ruralAdj_score _ _ (by decide) rfl (by decide) (by decide)
  have hres : resolve gC7 tmC7 = (some (format_location ldSiltara), (19:ℚ)/20) := by
    have hpm : pyMax (specificityScore "urban" tmC7)
        [(format_location ldRaipurULB, (9:ℚ)/10, "hierarchy"),
         (format_location ldSiltara, (19:ℚ)/20, "hierarchy")] =
        some (format_location ldSiltara, (19:ℚ)/20, "hierarchy") := by
      show some (if specificityScore "urban" tmC7
          (format_location ldRaipurULB, (9:ℚ)/10, "hierarchy") < specificityScore "urban" tmC7
          (format_location ldSiltara, (19:ℚ)/20, "hierarchy")
        then (format_location ldSiltara, (19:ℚ)/20, "hierarchy")
        else (format_location ldRaipurULB, (9:ℚ)/10, "hierarchy")) =
        some (format_location ldSiltara, (19:ℚ)/20, "hierarchy")
      rw [if_pos (by rw [hsR, hsS]; norm_num)]
    unfold resolve select_best_match
    rw [hms, hctx, hpm]
  refine ⟨hctx, ?_, ?_, by decide, by decide, hres⟩
  · rw [hms]
    exact List.mem_cons_of_mem _ (List.mem_cons_self _ _)
  · rw [hms]
    exact List.mem_cons_self _ _

/-- C7 witness: with no adjacency bonus in play (`tmW7`), the amended theorem
applies and the urban body wins the tie-break. -/
theorem C7_urban_context_tiebreak_witness :
    ∃ best, select_best_match tmW7
      [(format_location ldSiltara, (19:ℚ)/20, "hierarchy"),
       (format_location ldRaipurULB, (9:ℚ)/10, "hierarchy")] = some best ∧
      best.1.location_type = "urban" := by
  apply C7_urban_context_tiebreak tmW7 _ (by decide)
  · intro m hm
    rcases List.mem_cons.mp hm with h1 | h1
    · subst h1
      exact Or.inl ⟨by decide, rfl, by decide, by decide, by decide⟩
    · rcases List.mem_cons.mp h1 with h2 | h2
      · subst h2
        exact Or.inr (Or.inl ⟨by decide, rfl, Or.inl (by decide)⟩)
      · exact absurd h2 (List.not_mem_nil m)
  · exact ⟨(format_location ldRaipurULB, (9:ℚ)/10, "hierarchy"),
      List.mem_cons_of_mem _ (List.mem_cons_self _ _),
      ⟨by decide, rfl, Or.inl (by decide)⟩⟩
  · exact ⟨(format_location ldSiltara, (19:ℚ)/20, "hierarchy"),
      List.mem_cons_self _ _,
      ⟨by decide, rfl, by decide, by decide, by decide⟩⟩


theorem candidateMatches_conf (g : GeoData) (tm : TextModel) (c : String) :
    ∀ m ∈ candidateMatches g tm c,
      m.2.1 = (19:ℚ)/20 ∨ m.2.1 = (9:ℚ)/10 ∨ m.2.1 = (17:ℚ)/20 := by
  intro m hm
  unfold candidateMatches at hm
  by_cases hlen : c.length < 2
  · rw [if_pos hlen] at hm
    exact absurd hm (List.not_mem_nil m)
  · rw [if_neg hlen] at hm
    rcases List.mem_append.mp hm with h | h
    · rcases List.mem_append.mp h with h2 | h2
      · rcases hv : g.village_index c with _ | l <;> rw [hv] at h2
        · exact absurd h2 (List.not_mem_nil m)
        · left; rw [List.mem_singleton.mp h2]
      · rcases hu : g.ulb_index c with _ | l <;> rw [hu] at h2
        · exact absurd h2 (List.not_mem_nil m)
        · right; left; rw [List.mem_singleton.mp h2]
    · rcases hd : g.district_map c with _ | l <;> rw [hd] at h
      · exact absurd h (List.not_mem_nil m)
      · right; right; rw [List.mem_singleton.mp h]

theorem resolve_conf_bounds (g : GeoData) (tm : TextModel) :
    0 ≤ (resolve g tm).2 ∧ (resolve g tm).2 ≤ 1 := by
  unfold resolve
  rcases hm : select_best_match tm (resolveMatches g tm) with _ | best
  · norm_num
  · unfold select_best_match at hm
    have hmem : best ∈ resolveMatches g tm := pyMax_mem _ _ _ hm
    have hc : best.2.1 = (19:ℚ)/20 ∨ best.2.1 = (9:ℚ)/10 ∨ best.2.1 = (17:ℚ)/20 := by
      rcases List.mem_flatMap.mp hmem with ⟨c, _, hcm⟩
      exact candidateMatches_conf g tm c best hcm
    constructor <;>
      (show _ ; rcases hc with h | h | h <;> simp only [h] <;> norm_num)

theorem roundHalfEven_le_add_one (x : ℚ) : (roundHalfEven x : ℚ) ≤ x + 1 := by
  have hf := Int.floor_le x
  unfold roundHalfEven
  split_ifs <;> push_cast <;> linarith

theorem pyRound2_le_half_of (x : ℚ) (hx : x ≤ 11/28) : pyRound2 x ≤ 1/2 := by
  unfold pyRound2
  rw [div_le_iff₀ (by norm_num : (0:ℚ) < 100)]
  calc (roundHalfEven (x * 100) : ℚ) ≤ x * 100 + 1 := roundHalfEven_le_add_one _
  _ ≤ (11:ℚ)/28 * 100 + 1 := by linarith
  _ ≤ 1/2 * 100 := by norm_num


theorem tierScores_nil (tm : TextModel)
    (hrescue : ∀ t ∈ RESCUE_TIERS, ∀ p ∈ t.2.patterns, tm.research p = false) :
    tierScores tm = [] := by
  unfold tierScores
  apply filterMap_none_of_forall
  intro t ht
  have h1 : t.2.patterns.countP tm.research = 0 := by
    rw [List.countP_eq_zero]
    intro p hp
    simp [hrescue t ht p hp]
  simp [h1]

theorem rescue_pass (tm : TextModel) (h : tierScores tm = []) :
    rescue tm "अन्य" = defaultRescueInfo "अन्य" := by
  unfold rescue
  rw [if_neg (by simp), h]
  rfl

theorem calculate_c6_bound (h : ℚ) (_hh0 : 0 ≤ h) (hh1 : h ≤ 1) :
    calculate [("keyword", some ((3:ℚ)/10)), ("hierarchy", some h),
               ("rescue", some (0:ℚ)), ("dictionary", some (0:ℚ))] ≤ 11/28 := by
  have hps : presentSignals [("keyword", some ((3:ℚ)/10)), ("hierarchy", some h),
      ("rescue", some (0:ℚ)), ("dictionary", some (0:ℚ))] =
      [(((3:ℚ)/10), ((1:ℚ)/4)), (h, ((1:ℚ)/5)), ((0:ℚ), ((3:ℚ)/20)),
       ((0:ℚ), ((1:ℚ)/10))] := rfl
  have htw : totalWeight [("keyword", some ((3:ℚ)/10)), ("hierarchy", some h),
      ("rescue", some (0:ℚ)), ("dictionary", some (0:ℚ))] = 7/10 := by
    rw [totalWeight, hps]
    simp [List.sum_cons]
    norm_num
  have hws : weightedSum [("keyword", some ((3:ℚ)/10)), ("hierarchy", some h),
      ("rescue", some (0:ℚ)), ("dictionary", some (0:ℚ))] = 3/40 + h * (1/5) := by
    rw [weightedSum, hps]
    simp [List.sum_cons]
    ring
  have hhc : highConfCount [("keyword", some ((3:ℚ)/10)), ("hierarchy", some h),
      ("rescue", some (0:ℚ)), ("dictionary", some (0:ℚ))] < 3 := by
    have d1 : decide ((((3:ℚ)/10) ≠ 0 ∧ (4:ℚ)/5 < (3:ℚ)/10)) = false := by
      rw [decide_eq_false_iff_not]
      norm_num
    have d0 : decide ((((0:ℚ)) ≠ 0 ∧ (4:ℚ)/5 < (0:ℚ))) = false := by
      rw [decide_eq_false_iff_not]
      norm_num
    unfold highConfCount
    simp only [List.map_cons, List.map_nil, List.countP_cons, List.countP_nil,
      d1, d0]
    split_ifs <;> simp_all
  unfold calculate
  rw [htw, hws]
  rw [if_neg (by norm_num)]
  show min (if 3 ≤ highConfCount [("keyword", some ((3:ℚ)/10)),
        ("hierarchy", some h), ("rescue", some (0:ℚ)), ("dictionary", some (0:ℚ))]
      then ((3/40 + h * (1/5)) / (7/10)) * (11/10)
      else (3/40 + h * (1/5)) / (7/10)) 1 ≤ 11/28
  rw [if_neg (not_le.mpr hhc)]
  calc min ((3/40 + h * (1/5)) / (7/10)) 1
      ≤ (3/40 + h * (1/5)) / (7/10) := min_le_left _ _
  _ ≤ 11/28 := by
      rw [div_le_iff₀ (by norm_num : (0:ℚ) < 7/10)]
      linarith

/-- C6: on a text with zero keyword matches in every category cluster, the
event classifier returns primary "अन्य" with keyword confidence exactly 0.3
and no secondary categories; if additionally no rescue-tier pattern matches,
the final (rounded) consensus confidence of the parsed post is at most 0.5
and `needs_review` is true — whatever the gazetteer resolves the location to. -/
theorem C6_zero_keyword_fallback (g : GeoData) (tm : TextModel)
    (hkw : ∀ c ∈ EVENT_KEYWORD_CLUSTERS_WEIGHTED, ∀ kw,
      (kw ∈ c.tier_1 ∨ kw ∈ c.tier_2 ∨ kw ∈ c.tier_3) → tm.occurs kw = false)
    (hrescue : ∀ t ∈ RESCUE_TIERS, ∀ p ∈ t.2.patterns, tm.research p = false) :
    detect tm = ("अन्य", 3/10, []) ∧
    (parseTweet g tm).event_type = "अन्य" ∧
    (parseTweet g tm).confidence ≤ 1/2 ∧
    (parseTweet g tm).needs_review = true := by
  have hdet := detect_no_keywords tm hkw
  have hres := rescue_pass tm (tierScores_nil tm hrescue)
  have hpt : parseTweet g tm =
      parseBody ("अन्य", 3/10, []) (resolve g tm) (defaultRescueInfo "अन्य")
        (extract_schemes tm) (bucketNames WORD_BUCKETS tm)
        (bucketNames COMMUNITIES tm) (bucketNames COMMUNITIES tm)
        (bucketNames ORGANIZATIONS tm) := by
    unfold parseTweet
    rw [hdet]
    show parseBody _ _ (rescue tm "अन्य") _ _ _ _ _ = _
    rw [hres]
  have hb := resolve_conf_bounds g tm
  have hh0 : 0 ≤ (if (resolve g tm).1.isSome then (resolve g tm).2 else 0) := by
    split_ifs
    · exact hb.1
    · exact le_refl 0
  have hh1 : (if (resolve g tm).1.isSome then (resolve g tm).2 else 0) ≤ 1 := by
    split_ifs
    · exact hb.2
    · norm_num
  have hcb := calculate_c6_bound _ hh0 hh1
  have hth : reviewThreshold "अन्य" = (85:ℚ)/100 := by
    unfold reviewThreshold
    rw [if_neg (by decide)]
    rfl
  refine ⟨hdet, ?_, ?_, ?_⟩
  · rw [hpt]
    rfl
  · have h2 : (parseTweet g tm).confidence =
        pyRound2 (calculate [("keyword", some ((3:ℚ)/10)),
          ("hierarchy", some (if (resolve g tm).1.isSome then (resolve g tm).2 else 0)),
          ("rescue", some (0:ℚ)), ("dictionary", some (0:ℚ))]) := by
      rw [hpt]
      rfl
    rw [h2]
    exact pyRound2_le_half_of _ hcb
  · have h3 : (parseTweet g tm).needs_review =
        (determine_review_status (calculate [("keyword", some ((3:ℚ)/10)),
          ("hierarchy", some (if (resolve g tm).1.isSome then (resolve g tm).2 else 0)),
          ("rescue", some (0:ℚ)), ("dictionary", some (0:ℚ))]) "अन्य").2 := by
      rw [hpt]
      rfl
    rw [h3]
    unfold determine_review_status
    rw [if_neg]
    rw [hth]
    intro hle
    have : (85:ℚ)/100 ≤ 11/28 := le_trans hle hcb
    norm_num at this

/-- C6 witness: the empty post (no keyword occurs, no pattern matches). -/
theorem C6_zero_keyword_fallback_witness :
    detect tmEmpty = ("अन्य", 3/10, []) ∧
    (parseTweet gNone tmEmpty).event_type = "अन्य" ∧
    (parseTweet gNone tmEmpty).confidence ≤ 1/2 ∧
    (parseTweet gNone tmEmpty).needs_review = true :=
  C6_zero_keyword_fallback gNone tmEmpty
    (fun _ _ _ _ => rfl) (fun _ _ _ _ => rfl)

theorem resolveSt_fst (g : GeoData) (tm : TextModel) (s : ResolverStats) :
    (resolveSt g tm s).1 = resolve g tm := by
  unfold resolveSt resolve
  cases select_best_match tm (resolveMatches g tm) <;> rfl

/-- C9: the per-post pipeline is a pure function of the input text — running
`parse_tweet` under any two states of the shared mutable statistics (the
resolver hit counters and the event/location distributions, the only mutable
state the V4 parser touches) yields identical annotations, equal to the pure
`parseTweet`. This is the same-process idempotence property: categories,
location, confidence and the review verdict depend only on the input record. -/
theorem C9_parse_tweet_deterministic (g : GeoData) (tm : TextModel)
    (s₁ s₂ : ParserStats) :
    (parseTweetSt g tm s₁).1 = (parseTweetSt g tm s₂).1 ∧
    (parseTweetSt g tm s₁).1 = parseTweet g tm := by
  have h : ∀ s, (parseTweetSt g tm s).1 = parseTweet g tm := by
    intro s
    show parseBody (detect tm) (resolveSt g tm s.resolver).1
      (rescue tm (detect tm).1) (extract_schemes tm)
      (bucketNames WORD_BUCKETS tm) (bucketNames COMMUNITIES tm)
      (bucketNames COMMUNITIES tm) (bucketNames ORGANIZATIONS tm) =
      parseTweet g tm
    rw [resolveSt_fst]
    rfl
  exact ⟨(h s₁).trans (h s₂).symm, h s₁⟩

theorem updateFn_self (f : String → Option LocData) (k : String) (v : LocData) :
    updateFn f k v k = some v := by
  simp [updateFn]

theorem updateFn_other (f : String → Option LocData) (k : String) (v : LocData)
    (a : String) (h : a ≠ k) : updateFn f k v a = f a := by
  simp [updateFn, h]

theorem indexRow_hits (f : String → Option LocData) (r : VillageRow) (a : String)
    (ha : a ∈ aliasesOf r) : indexRow f r a = some (mkVillageLoc r) := by
  rcases hv : r.village with _ | nv <;> rcases hh : r.village_hindi with _ | nh <;>
    simp only [indexRow, aliasesOf, hv, hh, List.nil_append, List.append_nil] at ha ⊢
  · exact absurd ha (List.not_mem_nil a)
  · by_cases h2 : nh ≠ ""
    · rw [if_pos h2] at ha
      rw [if_pos h2, List.mem_singleton.mp ha]
      exact updateFn_self _ _ _
    · rw [if_neg h2] at ha
      exact absurd ha (List.not_mem_nil a)
  · by_cases h1 : nv ≠ ""
    · rw [if_pos h1] at ha
      rw [if_pos h1, List.mem_singleton.mp ha]
      exact updateFn_self _ _ _
    · rw [if_neg h1] at ha
      exact absurd ha (List.not_mem_nil a)
  · by_cases h1 : nv ≠ ""
    · by_cases h2 : nh ≠ ""
      · rw [if_pos h1, if_pos h2] at ha
        rw [if_pos h2]
        rcases List.mem_append.mp ha with h | h
        · rw [List.mem_singleton.mp h]
          by_cases he : nv = nh
          · rw [he]
            exact updateFn_self _ _ _
          · rw [updateFn_other _ _ _ _ he, if_pos h1]
            exact updateFn_self _ _ _
        · rw [List.mem_singleton.mp h]
          exact updateFn_self _ _ _
      · rw [if_pos h1, if_neg h2, List.append_nil] at ha
        rw [if_neg h2, if_pos h1, List.mem_singleton.mp ha]
        exact updateFn_self _ _ _
    · by_cases h2 : nh ≠ ""
      · rw [if_neg h1, if_pos h2, List.nil_append] at ha
        rw [if_pos h2, List.mem_singleton.mp ha]
        exact updateFn_self _ _ _
      · rw [if_neg h1, if_neg h2] at ha
        exact absurd (List.mem_append.mp ha)
          (by rw [not_or]; exact ⟨List.not_mem_nil a, List.not_mem_nil a⟩)

theorem indexRow_miss (f : String → Option LocData) (r : VillageRow) (a : String)
    (ha : a ∉ aliasesOf r) : indexRow f r a = f a := by
  rcases hv : r.village with _ | nv <;> rcases hh : r.village_hindi with _ | nh <;>
    simp only [indexRow, aliasesOf, hv, hh, List.nil_append, List.append_nil] at ha ⊢
  · by_cases h2 : nh ≠ ""
    · rw [if_pos h2] at ha
      rw [if_pos h2]
      exact updateFn_other _ _ _ _
        (fun hcon => ha (hcon ▸ List.mem_singleton.mpr rfl))
    · rw [if_neg h2]
  · by_cases h1 : nv ≠ ""
    · rw [if_pos h1] at ha
      rw [if_pos h1]
      exact updateFn_other _ _ _ _
        (fun hcon => ha (hcon ▸ List.mem_singleton.mpr rfl))
    · rw [if_neg h1]
  · by_cases h1 : nv ≠ ""
    · by_cases h2 : nh ≠ ""
      · rw [if_pos h1, if_pos h2] at ha
        rw [if_pos h2]
        have hanv : a ≠ nv := fun hcon =>
          ha (List.mem_append_left _ (hcon ▸ List.mem_singleton.mpr rfl))
        have hanh : a ≠ nh := fun hcon =>
          ha (List.mem_append_right _ (hcon ▸ List.mem_singleton.mpr rfl))
        rw [updateFn_other _ _ _ _ hanh, if_pos h1, updateFn_other _ _ _ _ hanv]
      · rw [if_pos h1, if_neg h2, List.append_nil] at ha
        rw [if_neg h2, if_pos h1]
        exact updateFn_other _ _ _ _
          (fun hcon => ha (hcon ▸ List.mem_singleton.mpr rfl))
    · by_cases h2 : nh ≠ ""
      · rw [if_neg h1, if_pos h2, List.nil_append] at ha
        rw [if_pos h2, if_neg h1]
        exact updateFn_other _ _ _ _
          (fun hcon => ha (hcon ▸ List.mem_singleton.mpr rfl))
      · rw [if_neg h1, if_neg h2]

theorem foldlIndex_preserves (a : String) :
    ∀ (rows : List VillageRow) (f : String → Option LocData),
      (∀ r ∈ rows, a ∉ aliasesOf r) → (rows.foldl indexRow f) a = f a := by
  intro rows
  induction rows with
  | nil => intro f _; rfl
  | cons r t ih =>
    intro f h
    rw [List.foldl_cons]
    rw [ih _ (fun rr hrr => h rr (List.mem_cons_of_mem _ hrr))]
    exact indexRow_miss f r a (h r (List.mem_cons_self _ _))

theorem manualFold_preserves (a : String) :
    ∀ (l : List (String × String)) (f : String → Option LocData),
      (∀ hm ∈ l, hm.1 ≠ a) → manualFold l f a = f a := by
  intro l
  induction l with
  | nil => intro f _; rfl
  | cons hm t ih =>
    intro f h
    show manualFold t (match f hm.2 with
      | some l => updateFn f hm.1 l
      | none => f) a = f a
    rw [ih _ (fun x hx => h x (List.mem_cons_of_mem _ hx))]
    rcases hfm : f hm.2 with _ | ld
    · rfl
    · exact updateFn_other _ _ _ _ (Ne.symm (h hm (List.mem_cons_self _ _)))

theorem locInner_mono {α : Type} (rec b : α) (x : String) :
    ∀ (vs : List String) (idx : String → List α), rec ∈ idx x →
      rec ∈ (vs.foldl (locInnerStep b) idx) x := by
  intro vs
  induction vs with
  | nil => intro idx h; exact h
  | cons v t ih =>
    intro idx h
    rw [List.foldl_cons]
    apply ih
    show rec ∈ (if x = v then idx x ++ [b] else idx x)
    by_cases hx : x = v
    · rw [if_pos hx]
      exact List.mem_append_left _ h
    · rw [if_neg hx]
      exact h

theorem locInner_adds {α : Type} (b : α) (v : String) :
    ∀ (vs : List String) (idx : String → List α), v ∈ vs →
      b ∈ (vs.foldl (locInnerStep b) idx) v := by
  intro vs
  induction vs with
  | nil => intro idx h; exact absurd h (List.not_mem_nil v)
  | cons w t ih =>
    intro idx h
    rw [List.foldl_cons]
    rcases List.mem_cons.mp h with h1 | h1
    · subst h1
      apply locInner_mono
      show b ∈ (if v = v then idx v ++ [b] else idx v)
      rw [if_pos rfl]
      exact List.mem_append_right _ (List.mem_singleton.mpr rfl)
    · exact ih _ h1

theorem locOuter_mono {α : Type} (rec : α) (x : String) :
    ∀ (entries : List (List String × α)) (idx : String → List α),
      rec ∈ idx x → rec ∈ (entries.foldl locOuterStep idx) x := by
  intro entries
  induction entries with
  | nil => intro idx h; exact h
  | cons e t ih =>
    intro idx h
    rw [List.foldl_cons]
    exact ih _ (locInner_mono rec e.2 x e.1 idx h)

theorem locIndex_mem {α : Type} (e : List String × α) (v : String)
    (hv : v ∈ e.1) :
    ∀ (entries : List (List String × α)) (idx : String → List α),
      e ∈ entries → e.2 ∈ (entries.foldl locOuterStep idx) v := by
  intro entries
  induction entries with
  | nil => intro idx h; exact absurd h (List.not_mem_nil e)
  | cons x t ih =>
    intro idx h
    rw [List.foldl_cons]
    rcases List.mem_cons.mp h with h1 | h1
    · subst h1
      exact locOuter_mono _ _ t _ (locInner_adds e.2 v e.1 idx hv)
    · exact ih _ h1

/-- C8 (amended): an alias-to-record round-trip holds with two provisos
forced by the dict semantics of `_build_village_index` (plain assignment:
last writer wins). For every row `r` and registered alias `a` of `r` — its
truthy English name or Hindi variant — looking up `a` returns exactly `r`'s
`loc_data` PROVIDED no later-loaded row registers the same alias and the
manual-mapping pass does not overwrite `a`; without the proviso the lookup
returns the canonical entry of the LAST record registering `a` (see the
counterexample). In the list-valued index of
`LocationMatcher._build_location_index` (which appends instead of
overwriting) the round-trip holds unconditionally: every record remains
retrievable under each of its registered variants. -/
theorem C8_alias_roundtrip {α : Type} (l₁ l₂ : List VillageRow)
    (r : VillageRow) (a : String) (ha : a ∈ aliasesOf r)
    (hshadow : ∀ rr ∈ l₂, a ∉ aliasesOf rr)
    (hmanual : ∀ hm ∈ MANUAL_VILLAGE_MAPPING, hm.1 ≠ a)
    (entries : List (List String × α)) (e : List String × α) (v : String)
    (he : e ∈ entries) (hv : v ∈ e.1) :
    buildVillageIndex (l₁ ++ r :: l₂) a = some (mkVillageLoc r) ∧
    e.2 ∈ buildLocationIndex entries v := by
  constructor
  · unfold buildVillageIndex buildVillageIndexBase
    rw [manualFold_preserves a MANUAL_VILLAGE_MAPPING _ hmanual]
    rw [List.foldl_append, List.foldl_cons]
    rw [foldlIndex_preserves a l₂ _ hshadow]
    exact indexRow_hits _ r a ha
  · exact locIndex_mem e v hv entries _ he

/-- C8 counterexample: two homonymous villages "Rampur" (Durg, then Bastar).
"Rampur" is a registered alias of the Durg record, but the lookup returns the
Bastar record loaded later — the dict assignment overwrote the first entry,
so the round-trip fails as universally stated. -/
theorem C8_alias_roundtrip_counterexample :
    "Rampur" ∈ aliasesOf rowRampurDurg ∧
    buildVillageIndex [rowRampurDurg, rowRampurBastar] "Rampur" =
      some (mkVillageLoc rowRampurBastar) ∧
    mkVillageLoc rowRampurBastar ≠ mkVillageLoc rowRampurDurg := by
  decide

/-- C8 witness: with a single record (no homonyms, no manual override) the
round-trip holds, both for the dict index and the list-valued index. -/
theorem C8_alias_roundtrip_witness :
    buildVillageIndex ([] ++ rowRampurDurg :: []) "Rampur" =
      some (mkVillageLoc rowRampurDurg) ∧
    "RaipurRec" ∈ buildLocationIndex [(["रायपुर", "raipur"], "RaipurRec")] "raipur" :=
  C8_alias_roundtrip [] [] rowRampurDurg "Rampur" (by decide)
    (fun rr h => absurd h (List.not_mem_nil rr)) (by decide)
    [(["रायपुर", "raipur"], "RaipurRec")] (["रायपुर", "raipur"], "RaipurRec")
    "raipur" (List.mem_singleton.mpr rfl) (by decide)

/-- C10: the person-name extractor returns at most 8 names, sorted
(ascending code-point order, as Python's `sorted`) and deduplicated (the
`people` set); it is exactly the first 8 of the sorted distinct collected
names, every returned name was collected, and when more than 8 distinct
names were found some collected name is silently dropped from the output. -/
theorem C10_people_cap_sorted_dedup (vip_list : List String)
    (contains : String → Bool) (captures : List String) :
    extract_people vip_list contains captures =
      (pySortedStrings (peopleCollected vip_list contains captures).dedup).take 8 ∧
    (extract_people vip_list contains captures).length ≤ 8 ∧
    List.Sorted (· ≤ ·) (extract_people vip_list contains captures) ∧
    (extract_people vip_list contains captures).Nodup ∧
    (∀ x ∈ extract_people vip_list contains captures,
      x ∈ peopleCollected vip_list contains captures) ∧
    (8 < (pySortedStrings (peopleCollected vip_list contains captures).dedup).length →
      ∃ x ∈ pySortedStrings (peopleCollected vip_list contains captures).dedup,
        x ∉ extract_people vip_list contains captures) := by
  have hperm : (pySortedStrings (peopleCollected vip_list contains captures).dedup).Perm
      (peopleCollected vip_list contains captures).dedup :=
    List.perm_insertionSort _ _
  have hsorted : List.Sorted (· ≤ ·)
      (pySortedStrings (peopleCollected vip_list contains captures).dedup) :=
    List.sorted_insertionSort _ _
  have hnd : (pySortedStrings (peopleCollected vip_list contains captures).dedup).Nodup :=
    hperm.nodup_iff.mpr (List.nodup_dedup _)
  refine ⟨rfl, ?_, ?_, ?_, ?_, ?_⟩
  · unfold extract_people
    rw [List.length_take]
    exact min_le_left _ _
  · exact List.Pairwise.sublist (List.take_sublist _ _) hsorted
  · exact List.Nodup.sublist (List.take_sublist _ _) hnd
  · intro x hx
    have hx1 : x ∈ pySortedStrings (peopleCollected vip_list contains captures).dedup :=
      (List.take_subset _ _) hx
    exact List.dedup_subset _ (hperm.mem_iff.mp hx1)
  · intro h8
    have hl : ((pySortedStrings (peopleCollected vip_list contains captures).dedup).drop 8).length =
        (pySortedStrings (peopleCollected vip_list contains captures).dedup).length - 8 :=
      List.length_drop _ _
    obtain ⟨y, t, hyt⟩ : ∃ y t,
        (pySortedStrings (peopleCollected vip_list contains captures).dedup).drop 8 = y :: t := by
      rcases hd : (pySortedStrings (peopleCollected vip_list contains captures).dedup).drop 8 with _ | ⟨y, t⟩
      · rw [hd] at hl
        simp at hl
        omega
      · exact ⟨y, t, rfl⟩
    have hyd : y ∈ (pySortedStrings (peopleCollected vip_list contains captures).dedup).drop 8 := by
      rw [hyt]
      exact List.mem_cons_self _ _
    refine ⟨y, (List.drop_subset _ _) hyd, ?_⟩
    intro hyin
    have hsplit : (pySortedStrings (peopleCollected vip_list contains captures).dedup).take 8 ++
        (pySortedStrings (peopleCollected vip_list contains captures).dedup).drop 8 =
        pySortedStrings (peopleCollected vip_list contains captures).dedup :=
      List.take_append_drop _ _
    have hnd2 : ((pySortedStrings (peopleCollected vip_list contains captures).dedup).take 8 ++
        (pySortedStrings (peopleCollected vip_list contains captures).dedup).drop 8).Nodup := by
      rw [hsplit]
      exact hnd
    exact ((List.nodup_append.mp hnd2).2.2) hyin hyd

/-- C10 witness: nine distinct VIP names in the text; the ninth (in sorted
order) is dropped from the capped output. -/
theorem C10_people_cap_sorted_dedup_witness :
    ∃ x ∈ pySortedStrings (peopleCollected [] c10contains []).dedup,
      x ∉ extract_people [] c10contains [] :=
  (C10_people_cap_sorted_dedup [] c10contains []).2.2.2.2.2 (by
    unfold pySortedStrings
    rw [(List.perm_insertionSort _ _).length_eq]
    decide)
